import Mathlib

/-!
Verification development for the dual-endpoint MCS API client
(mcs_output_encoders.py): token store, session manager, resilient
request executor and domain operations, shallowly embedded in Lean.

Modelling conventions:
* Machine time is an abstract natural number of Unix seconds, constant
  over one run of a function (real runs take negligible time).
* The SQL token store is modelled as a reliable in-memory row (its six
  token columns); database transport failures are out of scope of the
  claims under verification.
* HTTP traffic is modelled by per-endpoint scripted response queues; an
  exhausted queue behaves as a network error.  Every outward request is
  recorded in an event trace.
* Library calls (base64.b64decode, json.loads) are modelled by
  executable Lean functions faithful to CPython behaviour on the ASCII
  fragment exercised here; the fragments not modelled (non-integer JSON
  numbers, string escapes, non-ASCII payloads) are treated as parse
  failures and are noted at the definitions.
-/

deriving instance DecidableEq for Except

/-- Python dict update: functional update of a string-keyed map. -/
def updf {α : Type} (f : String → α) (k : String) (v : α) : String → α :=
  fun x => if x == k then v else f x

/-- Python str.split with a one-character separator:
"a..b".split of a dot gives ["a", "", "b"], "".split gives [""]. -/
def pySplit (sep : Char) : List Char → List (List Char)
  | [] => [[]]
  | c :: rest =>
    let r := pySplit sep rest
    if c == sep then [] :: r
    else match r with
      | [] => [[c]]
      | h :: t => (c :: h) :: t

/-- Value of a character in the standard base64 alphabet (A-Z a-z 0-9 + /). -/
def b64Val (c : Char) : Option Nat :=
  if 'A' ≤ c ∧ c ≤ 'Z' then some (c.toNat - 'A'.toNat)
  else if 'a' ≤ c ∧ c ≤ 'z' then some (c.toNat - 'a'.toNat + 26)
  else if '0' ≤ c ∧ c ≤ '9' then some (c.toNat - '0'.toNat + 52)
  else if c = '+' then some 62
  else if c = '/' then some 63
  else none

def isB64Char (c : Char) : Bool := (b64Val c).isSome

/-- Turn a list of base64 sextet values into bytes, three per group of
four; a trailing group of two or three sextets yields one or two bytes
(trailing bits are discarded, as CPython's non-strict decoder does). -/
def b64Quads : List Nat → List Nat
  | a :: b :: c :: d :: rest =>
    (a * 4 + b / 16) :: ((b % 16) * 16 + c / 4) :: ((c % 4) * 64 + d) :: b64Quads rest
  | [a, b] => [a * 4 + b / 16]
  | [a, b, c] => [a * 4 + b / 16, (b % 16) * 16 + c / 4]
  | _ => []

/-- Model of base64.b64decode with validate=False (binascii.a2b_base64,
non-strict): characters outside the alphabet and the padding character
are discarded, data stops at the first padding character, and decoding
fails when the number of data characters is 1 mod 4 or when fewer
padding characters follow than the final partial group requires.
Checked against CPython on representative inputs, including discarded
base64url characters and misplaced padding. -/
def b64decode (cs : List Char) : Option (List Nat) :=
  let kept := cs.filter (fun c => isB64Char c || c == '=')
  let dat := kept.takeWhile (fun c => isB64Char c)
  let rest := kept.drop dat.length
  let r := dat.length % 4
  if r == 1 then none
  else if r != 0 && rest.countP (fun c => c == '=') < 4 - r then none
  else some (b64Quads (dat.filterMap b64Val))

/-- JSON values of the fragment relevant to this program: null,
booleans, integers, strings, arrays and objects. -/
inductive JVal where
  | jnull : JVal
  | jbool : Bool → JVal
  | jint : Int → JVal
  | jstr : String → JVal
  | jarr : List JVal → JVal
  | jobj : List (String × JVal) → JVal

/-- Last-occurrence lookup in a JSON object: CPython's json.loads keeps
the last of duplicate keys. -/
def jLookup (k : String) : List (String × JVal) → Option JVal
  | [] => none
  | (k2, v) :: rest =>
    match jLookup k rest with
    | some v2 => some v2
    | none => if k2 == k then some v else none

def jsonWS (c : Char) : Bool := c == ' ' || c == '\t' || c == '\n' || c == '\r'

def jsonSkipWS : List Char → List Char
  | [] => []
  | c :: rest => if jsonWS c then jsonSkipWS rest else c :: rest

def isDigitCh (c : Char) : Bool := '0' ≤ c ∧ c ≤ '9'

def digitsVal : List Char → Nat → Nat
  | [], acc => acc
  | c :: rest, acc => digitsVal rest (acc * 10 + (c.toNat - '0'.toNat))

/-- Parse a JSON string body after the opening quote.  Escape sequences
and non-printable or non-ASCII characters are not modelled (they make
the parse fail; json.loads would interpret them — no claim depends on
such payloads). -/
def jsonStr : List Char → Option (String × List Char)
  | [] => none
  | c :: rest =>
    if c == '"' then some ("", rest)
    else if c == '\\' || c.toNat < 32 || c.toNat ≥ 127 then none
    else match jsonStr rest with
      | some (s, rem) => some (⟨c :: s.data⟩, rem)
      | none => none

mutual

/-- Recursive-descent parser for the JSON fragment: fuel bounds the
recursion depth; non-integer numbers are not modelled (parse failure;
no claim involves fractional timestamps). -/
def jsonVal (fuel : Nat) (cs : List Char) : Option (JVal × List Char) :=
  match fuel with
  | 0 => none
  | fuel + 1 =>
    match jsonSkipWS cs with
    | [] => none
    | c :: rest =>
      if c == 'n' then
        match rest with
        | 'u' :: 'l' :: 'l' :: rem => some (JVal.jnull, rem)
        | _ => none
      else if c == 't' then
        match rest with
        | 'r' :: 'u' :: 'e' :: rem => some (JVal.jbool true, rem)
        | _ => none
      else if c == 'f' then
        match rest with
        | 'a' :: 'l' :: 's' :: 'e' :: rem => some (JVal.jbool false, rem)
        | _ => none
      else if c == '"' then
        match jsonStr rest with
        | some (s, rem) => some (JVal.jstr s, rem)
        | none => none
      else if c == '-' then
        let ds := rest.takeWhile isDigitCh
        if ds.isEmpty then none
        else some (JVal.jint (-(digitsVal ds 0 : Int)), rest.drop ds.length)
      else if isDigitCh c then
        let ds := (c :: rest).takeWhile isDigitCh
        some (JVal.jint (digitsVal ds 0 : Int), (c :: rest).drop ds.length)
      else if c == '[' then
        match jsonSkipWS rest with
        | ']' :: rem => some (JVal.jarr [], rem)
        | other =>
          match jsonArrItems fuel other with
          | some (vs, rem) => some (JVal.jarr vs, rem)
          | none => none
      else if c == '{' then
        match jsonSkipWS rest with
        | '}' :: rem => some (JVal.jobj [], rem)
        | other =>
          match jsonObjItems fuel other with
          | some (fs, rem) => some (JVal.jobj fs, rem)
          | none => none
      else none

def jsonArrItems (fuel : Nat) (cs : List Char) : Option (List JVal × List Char) :=
  match fuel with
  | 0 => none
  | fuel + 1 =>
    match jsonVal fuel cs with
    | none => none
    | some (v, rem) =>
      match jsonSkipWS rem with
      | ',' :: rest =>
        match jsonArrItems fuel rest with
        | some (vs, rem2) => some (v :: vs, rem2)
        | none => none
      | ']' :: rest => some ([v], rest)
      | _ => none

def jsonObjItems (fuel : Nat) (cs : List Char) : Option (List (String × JVal) × List Char) :=
  match fuel with
  | 0 => none
  | fuel + 1 =>
    match jsonSkipWS cs with
    | '"' :: rest =>
      match jsonStr rest with
      | none => none
      | some (k, rem) =>
        match jsonSkipWS rem with
        | ':' :: rest2 =>
          match jsonVal fuel rest2 with
          | none => none
          | some (v, rem2) =>
            match jsonSkipWS rem2 with
            | ',' :: rest3 =>
              match jsonObjItems fuel rest3 with
              | some (fs, rem3) => some ((k, v) :: fs, rem3)
              | none => none
            | '}' :: rest3 => some ([(k, v)], rest3)
            | _ => none
        | _ => none
    | _ => none

end

/-- Model of json.loads on a character sequence: one value, then only
whitespace may remain. -/
def jsonParseChars (cs : List Char) : Option JVal :=
  match jsonVal (cs.length + 1) cs with
  | some (v, rem) => if (jsonSkipWS rem).isEmpty then some v else none
  | none => none

def jsonParse (s : String) : Option JVal := jsonParseChars s.data

/-- Bytes to characters: json.loads receives bytes and decodes UTF-8;
only the ASCII plane is modelled (a payload with a byte over 127 is
treated as a parse failure). -/
def bytesToChars (bs : List Nat) : Option (List Char) :=
  match bs with
  | [] => some []
  | b :: rest =>
    if b < 128 then
      match bytesToChars rest with
      | some cs => some (Char.ofNat b :: cs)
      | none => none
    else none

/-- get_jwt_exp from the source: take the segment at index 1 of the
token split on dots, pad with '=' to a multiple of four of the raw
segment length, base64.b64decode it (standard alphabet), json.loads the
bytes and read the "exp" field with default 0; any failure along the
way (fewer than two segments, decode error, non-JSON, non-object,
missing "exp") yields 0 via the enclosing bare except.  An "exp" field
that is not an integer is also modelled as 0 (the Python code would
return the raw value, which no caller-visible claim exercises). -/
def get_jwt_exp (token : String) : Int :=
  match (pySplit '.' token.data).get? 1 with
  | none => 0
  | some payload =>
    let padded := payload ++ List.replicate ((4 - payload.length % 4) % 4) '='
    match b64decode padded with
    | none => 0
    | some bytes =>
      match bytesToChars bytes with
      | none => 0
      | some cs =>
        match jsonParseChars cs with
        | some (JVal.jobj fields) =>
          match jLookup "exp" fields with
          | some (JVal.jint n) => n
          | some _ => 0
          | none => 0
        | some _ => 0
        | none => 0

/-- Value of a character in the base64url alphabet (A-Z a-z 0-9 - _),
used only by the spec-side decoder below. -/
def b64urlVal (c : Char) : Option Nat :=
  if c = '-' then some 62
  else if c = '_' then some 63
  else if c = '+' ∨ c = '/' then none
  else b64Val c

def isB64UrlChar (c : Char) : Bool := (b64urlVal c).isSome

/-- Base64url decoding for the spec-side extractor: the url alphabet,
with the same padding discipline as the standard decoder. -/
def b64decodeUrl (cs : List Char) : Option (List Nat) :=
  let kept := cs.filter (fun c => isB64UrlChar c || c == '=')
  let dat := kept.takeWhile (fun c => isB64UrlChar c)
  let rest := kept.drop dat.length
  let r := dat.length % 4
  if r == 1 then none
  else if r != 0 && rest.countP (fun c => c == '=') < 4 - r then none
  else some (b64Quads (dat.filterMap b64urlVal))

/-- Modelled from the spec (section 4.1): the expiry extraction as the
spec words it — require exactly three dot-separated segments, decode
the middle segment with the base64url alphabet, parse it as JSON and
read the exp field; any failure yields 0.  This definition exists only
to be compared with get_jwt_exp, which is translated from the source. -/
def get_jwt_exp_spec (token : String) : Int :=
  match pySplit '.' token.data with
  | [_, payload, _] =>
    if payload.all isB64UrlChar then
      let padded := payload ++ List.replicate ((4 - payload.length % 4) % 4) '='
      match b64decodeUrl padded with
      | none => 0
      | some bytes =>
        match bytesToChars bytes with
        | none => 0
        | some cs =>
          match jsonParseChars cs with
          | some (JVal.jobj fields) =>
            match jLookup "exp" fields with
            | some (JVal.jint n) => n
            | some _ => 0
            | none => 0
          | some _ => 0
          | none => 0
    else 0
  | _ => 0

/-- Base URLs: built at startup from the MCS_IP_PRIMARY / MCS_IP_SECONDARY
environment variables; modelled as fixed, distinct placeholder strings
(the program requires both variables and the deployment uses two
distinct hosts, neither containing the digits 401). -/
def base_primary : String := "https://mcs-primary:443"

def base_secondary : String := "https://mcs-secondary:443"

/-- The two groups of token columns of row id=1 of dbo.mcs_admin. -/
inductive ColSet where
  | primaryCols : ColSet
  | secondaryCols : ColSet
  deriving DecidableEq

/-- get_token_columns from the source: the primary columns when the
base_url equals base_primary, the secondary columns otherwise. -/
def get_token_columns (base_url : String) : ColSet :=
  if base_url == base_primary then ColSet.primaryCols else ColSet.secondaryCols

/-- One group of token columns; SQL columns are nullable. -/
structure ColRec where
  access : Option String
  refresh : Option String
  exp : Option Int
  deriving DecidableEq

/-- The token columns of the persisted row (both endpoints). -/
structure Store where
  pcols : ColRec
  scols : ColRec
  deriving DecidableEq

def Store.read (st : Store) : ColSet → ColRec
  | ColSet.primaryCols => st.pcols
  | ColSet.secondaryCols => st.scols

def Store.write (st : Store) : ColSet → ColRec → Store
  | ColSet.primaryCols, r => { st with pcols := r }
  | ColSet.secondaryCols, r => { st with scols := r }

/-- The dict returned by load_token on success. -/
structure TokenRec where
  access_token : String
  refresh_token : Option String
  exp : Int
  deriving DecidableEq

/-- Outcome of one HTTP exchange as scripted by the environment: a
response with a status code and a raw body, or a network-level error
(connection failure or timeout). -/
inductive HResp where
  | resp : Nat → String → HResp
  | netErr : HResp
  deriving DecidableEq

/-- Scripted HTTP world: per-endpoint response queues for the login,
refresh, GET and PUT requests the client can issue, consumed in order;
an exhausted queue acts as a network error. -/
structure Env where
  loginQ : String → List HResp
  refreshQ : String → List HResp
  getQ : String → List HResp
  putQ : String → List HResp

/-- Observable actions of one run.  dbLoad/dbSave are token-store row
accesses; loginReq/refreshReq are POSTs to the auth endpoints;
httpGet/httpPut are resource requests carrying the Authorization bearer
actually sent; invalidateCache marks the executor clearing the cached
token after a 401; bearerIssued records each token handed out by
bearer_token for an endpoint; refetch marks an entry into
get_valid_token. -/
inductive Event where
  | dbLoad : String → Event
  | dbSave : String → String → String → Int → Event
  | loginReq : String → Event
  | refreshReq : String → Option String → Event
  | httpGet : String → String → String → Event
  | httpPut : String → String → String → String → Event
  | invalidateCache : String → Event
  | bearerIssued : String → String → Event
  | refetch : String → Event
  deriving DecidableEq

/-- Python exceptions relevant to control flow. -/
inductive PyErr where
  | httpError : Nat → String → PyErr
  | netError : String → PyErr
  | jsonError : PyErr
  | keyError : PyErr
  | refreshFailed : PyErr
  | authFailed : PyErr
  | fuelOut : PyErr
  deriving DecidableEq

/-- Process state: the two module-level dicts (_cached_tokens and
_refresh_tokens, whose entries may hold Python None), the persisted
row, and the scripted HTTP world.  Dict entries are Option (Option
String): the outer layer is key presence, the inner layer nullability
of the stored value. -/
structure St where
  cached_tokens : String → Option (Option String)
  refresh_tokens : String → Option (Option String)
  store : Store
  env : Env

/-- Pop the head of the login queue for an endpoint. -/
def popLogin (s : St) (base_url : String) : HResp × St :=
  match s.env.loginQ base_url with
  | [] => (HResp.netErr, s)
  | h :: t => (h, { s with env := { s.env with loginQ := updf s.env.loginQ base_url t } })

def popRefresh (s : St) (base_url : String) : HResp × St :=
  match s.env.refreshQ base_url with
  | [] => (HResp.netErr, s)
  | h :: t => (h, { s with env := { s.env with refreshQ := updf s.env.refreshQ base_url t } })

def popGet (s : St) (base_url : String) : HResp × St :=
  match s.env.getQ base_url with
  | [] => (HResp.netErr, s)
  | h :: t => (h, { s with env := { s.env with getQ := updf s.env.getQ base_url t } })

def popPut (s : St) (base_url : String) : HResp × St :=
  match s.env.putQ base_url with
  | [] => (HResp.netErr, s)
  | h :: t => (h, { s with env := { s.env with putQ := updf s.env.putQ base_url t } })

/-- load_token from the source: select this endpoint's columns, read
the row; absent when the access column is NULL or empty; the expiry is
the exp column with NULL (or any falsy value) as 0; the record is
returned only when the expiry is nonzero and more than 60 seconds
ahead of now, and is absent otherwise.  Row read failures (caught and
logged in the source) are outside the reliable-store model. -/
def load_token_res (base_url : String) (now : Nat) (s : St) : Option TokenRec :=
  let cols := s.store.read (get_token_columns base_url)
  match cols.access with
  | none => none
  | some ta =>
    if ta == "" then none
    else
      let exp := match cols.exp with
        | none => 0
        | some e => if e == 0 then 0 else e
      if exp != 0 && exp > (now : Int) + 60 then
        some { access_token := ta, refresh_token := cols.refresh, exp := exp }
      else none

def load_token (base_url : String) (now : Nat) (s : St) :
    Option TokenRec × St × List Event :=
  (load_token_res base_url now s, s, [Event.dbLoad base_url])

/-- save_token from the source: compute the expiry from the access
token's JWT claim and overwrite this endpoint's three columns of the
row.  The store being modelled reliable, the persist-failure re-raise
branch is unreachable here. -/
def save_token (access_token refresh_tok : String) (base_url : String) (s : St) :
    St × List Event :=
  let exp := get_jwt_exp access_token
  let cols := get_token_columns base_url
  let newRec : ColRec :=
    { access := some access_token, refresh := some refresh_tok, exp := some exp }
  let s2 := { s with store := s.store.write cols newRec }
  (s2, [Event.dbSave base_url access_token refresh_tok exp])

/-- Extraction of r.json()["data"]["access_token"/"refresh_token"] as
done by login and refresh_token; a non-JSON body, missing fields or
non-string fields are collapsed into one failure (the callers' handlers
do not distinguish JSONDecodeError from KeyError). -/
def parseAuthBody (body : String) : Option (String × String) :=
  match jsonParse body with
  | some (JVal.jobj fields) =>
    match jLookup "data" fields with
    | some (JVal.jobj dfields) =>
      match jLookup "access_token" dfields, jLookup "refresh_token" dfields with
      | some (JVal.jstr a), some (JVal.jstr r) => some (a, r)
      | _, _ => none
    | _ => none
  | _ => none

/-- login from the source: POST to /api/5.1/auth/login, raise_for_status
(4xx and 5xx raise), read data.access_token / data.refresh_token,
persist via save_token, return the access token. -/
def login (base_url : String) (s : St) : Except PyErr String × St × List Event :=
  let url := base_url ++ "/api/5.1/auth/login"
  let (r, s1) := popLogin s base_url
  let ev := [Event.loginReq base_url]
  match r with
  | HResp.netErr => (Except.error (PyErr.netError url), s1, ev)
  | HResp.resp status body =>
    if 400 ≤ status ∧ status < 600 then
      (Except.error (PyErr.httpError status url), s1, ev)
    else match parseAuthBody body with
      | none => (Except.error PyErr.keyError, s1, ev)
      | some (a, rt) =>
        let (s2, ev2) := save_token a rt base_url s1
        (Except.ok a, s2, ev ++ ev2)

/-- refresh_token from the source: POST the refresh token (possibly a
Python None loaded from a NULL column) to /api/5.1/auth/token/refresh;
any status of 400 or above raises "Refresh failed"; otherwise read the
new pair, persist it and return the access token. -/
def refresh_token (base_url : String) (refresh_token_str : Option String) (s : St) :
    Except PyErr String × St × List Event :=
  let url := base_url ++ "/api/5.1/auth/token/refresh"
  let (r, s1) := popRefresh s base_url
  let ev := [Event.refreshReq base_url refresh_token_str]
  match r with
  | HResp.netErr => (Except.error (PyErr.netError url), s1, ev)
  | HResp.resp status body =>
    if 400 ≤ status then (Except.error PyErr.refreshFailed, s1, ev)
    else match parseAuthBody body with
      | none => (Except.error PyErr.keyError, s1, ev)
      | some (a, rt) =>
        let (s2, ev2) := save_token a rt base_url s1
        (Except.ok a, s2, ev ++ ev2)

/-- The login fallback tail of get_valid_token: cache the token
returned by login, read the store back (a second load_token call) to
pick up the refresh token, and return the access token; a login failure
of any kind becomes the endpoint-scoped "Could not authenticate to MCS"
error. -/
def gvtLogin (base_url : String) (now : Nat) (s : St) (ev : List Event) :
    Except PyErr String × St × List Event :=
  let (lres, s1, ev1) := login base_url s
  match lres with
  | Except.ok a =>
    let s2 := { s1 with cached_tokens := updf s1.cached_tokens base_url (some (some a)) }
    let (c2, s3, ev2) := load_token base_url now s2
    let s4 := match c2 with
      | some cc =>
        { s3 with refresh_tokens := updf s3.refresh_tokens base_url (some cc.refresh_token) }
      | none => s3
    (Except.ok a, s4, ev ++ ev1 ++ ev2)
  | Except.error _ => (Except.error PyErr.authFailed, s1, ev ++ ev1)

/-- get_valid_token from the source: load the persisted record and, when
present, seed both module-level dicts with it; then, whenever the
refresh dict has an entry for this endpoint, attempt the remote refresh
(caching and returning its token on success); on refresh absence or
failure fall back to full login via gvtLogin. -/
def get_valid_token (base_url : String) (now : Nat) (s : St) :
    Except PyErr String × St × List Event :=
  let ev0 := [Event.refetch base_url]
  let (cacheOpt, s1, ev1) := load_token base_url now s
  let s2 := match cacheOpt with
    | some c =>
      { s1 with
        cached_tokens := updf s1.cached_tokens base_url (some (some c.access_token)),
        refresh_tokens := updf s1.refresh_tokens base_url (some c.refresh_token) }
    | none => s1
  match s2.refresh_tokens base_url with
  | some rtok =>
    let (rres, s3, ev2) := refresh_token base_url rtok s2
    match rres with
    | Except.ok a =>
      let s4 := { s3 with cached_tokens := updf s3.cached_tokens base_url (some (some a)) }
      (Except.ok a, s4, ev0 ++ ev1 ++ ev2)
    | Except.error _ => gvtLogin base_url now s3 (ev0 ++ ev1 ++ ev2)
  | none => gvtLogin base_url now s2 (ev0 ++ ev1)

/-- bearer_token from the source: return the cached access token when
the dict holds a truthy entry for this endpoint (no store read, no
network, no expiry inspection); otherwise fetch one via get_valid_token
and cache it.  Each issued token is recorded as a bearerIssued event. -/
def bearer_token (base_url : String) (now : Nat) (s : St) :
    Except PyErr String × St × List Event :=
  let hit := match s.cached_tokens base_url with
    | some (some t) => if t == "" then none else some t
    | _ => none
  match hit with
  | some t => (Except.ok t, s, [Event.bearerIssued base_url t])
  | none =>
    let (r, s1, ev) := get_valid_token base_url now s
    match r with
    | Except.ok a =>
      let s2 := { s1 with cached_tokens := updf s1.cached_tokens base_url (some (some a)) }
      (Except.ok a, s2, ev ++ [Event.bearerIssued base_url a])
    | Except.error e => (Except.error e, s1, ev)

/-- Is the digit sequence 401 present consecutively? -/
def has401chars : List Char → Bool
  | '4' :: '0' :: '1' :: _ => true
  | _ :: rest => has401chars rest
  | [] => false

/-- The `"401" in str(e)` test of the executors: str of an HTTPError is
"status_code <reason> for url: <url>", so the test holds when the digits
401 occur in the status code or in the request URL (the server-supplied
reason phrase is not modelled). -/
def errHas401 (status : Nat) (url : String) : Bool :=
  has401chars ((Nat.repr status).data ++ (" Error for url: " ++ url).data)

/-- Outcome of the shared tail of both executors (raise_for_status and
r.json() inside try, then the except clause): a parsed 200-range body, a
handover to the secondary endpoint (HTTPError whose text contains 401),
or a raised error. -/
inductive FinishOut where
  | okOut : JVal → FinishOut
  | failover : FinishOut
  | errOut : PyErr → FinishOut

/-- Shared executor tail: a network error propagates (the except clause
only catches HTTPError); a 4xx/5xx status raises an HTTPError, which the
except clause turns into a recursive call on the secondary when its text
contains 401 and re-raises otherwise; any other status has its body
parsed as JSON (a malformed body raising, uncaught). -/
def finishResp (url : String) (r : HResp) : FinishOut :=
  match r with
  | HResp.netErr => FinishOut.errOut (PyErr.netError url)
  | HResp.resp status body =>
    if 400 ≤ status ∧ status < 600 then
      if errHas401 status url then FinishOut.failover
      else FinishOut.errOut (PyErr.httpError status url)
    else match jsonParse body with
      | some j => FinishOut.okOut j
      | none => FinishOut.errOut PyErr.jsonError

/-- send_api_get_call from the source: obtain a bearer, issue the GET;
on a 401 status clear the cached token for this endpoint, obtain a
fresh bearer and retry once on the same endpoint; then raise_for_status
and parse — with the except clause recursing onto base_secondary when
the HTTPError text contains 401.  The fuel argument bounds that
unbounded source-level recursion; exhaustion yields the fuelOut marker,
which no theorem's scenario reaches. -/
def send_api_get_call (fuel : Nat) (full_path : String) (base_url : String)
    (now : Nat) (s : St) : Except PyErr JVal × St × List Event :=
  match fuel with
  | 0 => (Except.error PyErr.fuelOut, s, [])
  | fuel + 1 =>
    let url := base_url ++ full_path
    let (bres, s1, ev1) := bearer_token base_url now s
    match bres with
    | Except.error e => (Except.error e, s1, ev1)
    | Except.ok b1 =>
      let (r1, s2) := popGet s1 base_url
      let ev2 := ev1 ++ [Event.httpGet base_url full_path b1]
      let retry := match r1 with
        | HResp.resp st _ => st == 401
        | HResp.netErr => false
      if retry then
        let s3 := { s2 with cached_tokens := updf s2.cached_tokens base_url (some none) }
        let ev3 := ev2 ++ [Event.invalidateCache base_url]
        let (bres2, s4, ev4) := bearer_token base_url now s3
        match bres2 with
        | Except.error e => (Except.error e, s4, ev3 ++ ev4)
        | Except.ok b2 =>
          let (r2, s5) := popGet s4 base_url
          let ev5 := ev3 ++ ev4 ++ [Event.httpGet base_url full_path b2]
          match finishResp url r2 with
          | FinishOut.okOut j => (Except.ok j, s5, ev5)
          | FinishOut.errOut e => (Except.error e, s5, ev5)
          | FinishOut.failover =>
            let (res, s6, ev6) := send_api_get_call fuel full_path base_secondary now s5
            (res, s6, ev5 ++ ev6)
      else
        match finishResp url r1 with
        | FinishOut.okOut j => (Except.ok j, s2, ev2)
        | FinishOut.errOut e => (Except.error e, s2, ev2)
        | FinishOut.failover =>
          let (res, s6, ev6) := send_api_get_call fuel full_path base_secondary now s2
          (res, s6, ev2 ++ ev6)

/-- send_api_put_call from the source: identical control flow to the GET
executor, re-sending the same JSON payload (kept opaque here) on the
auth retry and on the 401-triggered recursion onto base_secondary. -/
def send_api_put_call (fuel : Nat) (full_path : String) (json_payload : String)
    (base_url : String) (now : Nat) (s : St) : Except PyErr JVal × St × List Event :=
  match fuel with
  | 0 => (Except.error PyErr.fuelOut, s, [])
  | fuel + 1 =>
    let url := base_url ++ full_path
    let (bres, s1, ev1) := bearer_token base_url now s
    match bres with
    | Except.error e => (Except.error e, s1, ev1)
    | Except.ok b1 =>
      let (r1, s2) := popPut s1 base_url
      let ev2 := ev1 ++ [Event.httpPut base_url full_path json_payload b1]
      let retry := match r1 with
        | HResp.resp st _ => st == 401
        | HResp.netErr => false
      if retry then
        let s3 := { s2 with cached_tokens := updf s2.cached_tokens base_url (some none) }
        let ev3 := ev2 ++ [Event.invalidateCache base_url]
        let (bres2, s4, ev4) := bearer_token base_url now s3
        match bres2 with
        | Except.error e => (Except.error e, s4, ev3 ++ ev4)
        | Except.ok b2 =>
          let (r2, s5) := popPut s4 base_url
          let ev5 := ev3 ++ ev4 ++ [Event.httpPut base_url full_path json_payload b2]
          match finishResp url r2 with
          | FinishOut.okOut j => (Except.ok j, s5, ev5)
          | FinishOut.errOut e => (Except.error e, s5, ev5)
          | FinishOut.failover =>
            let (res, s6, ev6) :=
              send_api_put_call fuel full_path json_payload base_secondary now s5
            (res, s6, ev5 ++ ev6)
      else
        match finishResp url r1 with
        | FinishOut.okOut j => (Except.ok j, s2, ev2)
        | FinishOut.errOut e => (Except.error e, s2, ev2)
        | FinishOut.failover =>
          let (res, s6, ev6) :=
            send_api_put_call fuel full_path json_payload base_secondary now s2
          (res, s6, ev2 ++ ev6)

/-- Domain operation skeleton shared by the five wrappers: call the GET
executor against primary; the bare except turns any failure into the
same call against secondary, whose outcome is final. -/
def tryBoth (fuel : Nat) (full_path : String) (now : Nat) (s : St) :
    Except PyErr JVal × St × List Event :=
  let (r, s1, ev1) := send_api_get_call fuel full_path base_primary now s
  match r with
  | Except.ok j => (Except.ok j, s1, ev1)
  | Except.error _ =>
    let (r2, s2, ev2) := send_api_get_call fuel full_path base_secondary now s1
    (r2, s2, ev1 ++ ev2)

/-- get_all_outputs from the source. -/
def get_all_outputs (fuel : Nat) (now : Nat) (s : St) :
    Except PyErr JVal × St × List Event :=
  tryBoth fuel "/api/5.1/outputs/config" now s

/-- get_one_output from the source. -/
def get_one_output (uuid_of_source : String) (fuel : Nat) (now : Nat) (s : St) :
    Except PyErr JVal × St × List Event :=
  tryBoth fuel ("/api/5.1/outputs/config/" ++ uuid_of_source) now s

/-- get_all_devices from the source. -/
def get_all_devices (fuel : Nat) (now : Nat) (s : St) :
    Except PyErr JVal × St × List Event :=
  tryBoth fuel "/api/5.1/devices/config" now s

/-- get_all_devices_status from the source. -/
def get_all_devices_status (fuel : Nat) (now : Nat) (s : St) :
    Except PyErr JVal × St × List Event :=
  tryBoth fuel "/api/5.1/devices/status" now s

/-- put_one_output from the source: the PUT executor against primary,
any failure retried wholesale against secondary. -/
def put_one_output (uuid_of_source : String) (payload_to_pass : String)
    (fuel : Nat) (now : Nat) (s : St) : Except PyErr JVal × St × List Event :=
  let fp := "/api/5.1/outputs/config/" ++ uuid_of_source
  let (r, s1, ev1) := send_api_put_call fuel fp payload_to_pass base_primary now s
  match r with
  | Except.ok j => (Except.ok j, s1, ev1)
  | Except.error _ =>
    let (r2, s2, ev2) := send_api_put_call fuel fp payload_to_pass base_secondary now s1
    (r2, s2, ev1 ++ ev2)

/-- Event classifiers used by the counting statements. -/
def evIsHttpReq : Event → Bool
  | Event.httpGet _ _ _ => true
  | Event.httpPut _ _ _ _ => true
  | _ => false

def evIsGetTo (bu : String) : Event → Bool
  | Event.httpGet b _ _ => b == bu
  | _ => false

def evIsPutTo (bu : String) : Event → Bool
  | Event.httpPut b _ _ _ => b == bu
  | _ => false

def evIsRefetch : Event → Bool
  | Event.refetch _ => true
  | _ => false

/-- Events an auth-layer run (bearer_token and below) can emit: everything
except resource requests and cache invalidations. -/
def evIsAuthTrace : Event → Bool
  | Event.httpGet _ _ _ => false
  | Event.httpPut _ _ _ _ => false
  | Event.invalidateCache _ => false
  | _ => true

def evIsInvalidate (bu : String) : Event → Bool
  | Event.invalidateCache b => b == bu
  | _ => false

/-- Generic empty world pieces for concrete scenarios. -/
def envEmpty : Env :=
  { loginQ := fun _ => [], refreshQ := fun _ => [], getQ := fun _ => [], putQ := fun _ => [] }

def storeEmpty : Store :=
  { pcols := { access := none, refresh := none, exp := none },
    scols := { access := none, refresh := none, exp := none } }

def mapEmpty : String → Option (Option String) := fun _ => none

def stEmpty : St :=
  { cached_tokens := mapEmpty, refresh_tokens := mapEmpty, store := storeEmpty, env := envEmpty }

/-- A login/refresh response body carrying the given token pair. -/
def authBody (a r : String) : String :=
  "\x7b\"data\":\x7b\"access_token\":\"" ++ a ++ "\",\"refresh_token\":\"" ++ r ++ "\"\x7d\x7d"

/-- Scenario for the C10 witness: an expired token sits in the cache. -/
def mapC10 : String → Option (Option String) :=
  updf mapEmpty base_primary (some (some "h.eyJleHAiOjEwfQ.s"))

def stC10 : St :=
  { stEmpty with cached_tokens := mapC10 }

/-- One-endpoint response queue map: the given queue for that endpoint,
empty everywhere else. -/
def qOnly (bu : String) (q : List HResp) : String → List HResp :=
  fun x => if x == bu then q else []

/-- Two-endpoint response queue map. -/
def qBoth (qp qs : List HResp) : String → List HResp :=
  fun x => if x == base_primary then qp else if x == base_secondary then qs else []

/-- Scenario for claim C1: the store holds a still-valid record for the
primary endpoint (expiry 5000, now 1000) and the refresh endpoint would
answer with a fresh pair B/R2. -/
def storeC1 : Store :=
  { pcols := { access := some "A", refresh := some "R", exp := some 5000 },
    scols := { access := none, refresh := none, exp := none } }

def envC1 : Env :=
  { envEmpty with refreshQ := qOnly base_primary [HResp.resp 200 (authBody "B" "R2")] }

def stC1 : St :=
  { stEmpty with store := storeC1, env := envC1 }

/-- Scenario for claim C3: nothing stored or cached; the login endpoint
answers 200 with an access token whose decoded expiry is 10, long past
now = 1000. -/
def envC3 : Env :=
  { envEmpty with loginQ := qOnly base_primary [HResp.resp 200 (authBody "h.eyJleHAiOjEwfQ.s" "R")] }

def stC3 : St :=
  { stEmpty with env := envC3 }

/-- Scenario for claim C5: a cached primary token T0, the primary GET queue
answering 401 then 200, and a login endpoint able to hand out T1 for the
re-fetch. -/
def bodyC5 : String := "\x7b\"data\":[]\x7d"

def envC5 : Env :=
  { loginQ := qOnly base_primary [HResp.resp 200 (authBody "T1" "R1")],
    refreshQ := fun _ => [],
    getQ := qOnly base_primary [HResp.resp 401 "", HResp.resp 200 bodyC5],
    putQ := fun _ => [] }

def stC5 : St :=
  { cached_tokens := updf mapEmpty base_primary (some (some "T0")),
    refresh_tokens := mapEmpty, store := storeEmpty, env := envC5 }

/-- The intermediate state of the C5 run: first response consumed, cached
token invalidated. -/
def envC5b : Env :=
  { stC5.env with getQ := updf stC5.env.getQ base_primary [HResp.resp 200 bodyC5] }

def s3C5 : St :=
  { stC5 with
    cached_tokens := updf stC5.cached_tokens base_primary (some none),
    env := envC5b }

def s4C5 : St := (bearer_token base_primary 1000 s3C5).2.1

def ev4C5 : List Event := (bearer_token base_primary 1000 s3C5).2.2

def jC5 : JVal := JVal.jobj [("data", JVal.jarr [])]

/-- Scenario for claim C2: both endpoints have cached tokens, the primary GET
queue answers 401 twice, the secondary 200; a login response is available for
the re-fetch on the primary. -/
def bodyC2 : String := "\x7b\"data\":[1]\x7d"

def jC2 : JVal := JVal.jobj [("data", JVal.jarr [JVal.jint 1])]

def mapC2 : String → Option (Option String) :=
  updf (updf mapEmpty base_primary (some (some "T0"))) base_secondary (some (some "S0"))

def envC2 : Env :=
  { loginQ := qOnly base_primary [HResp.resp 200 (authBody "T1" "R1")],
    refreshQ := fun _ => [],
    getQ := qBoth [HResp.resp 401 "", HResp.resp 401 ""] [HResp.resp 200 bodyC2],
    putQ := fun _ => [] }

def stC2 : St :=
  { cached_tokens := mapC2, refresh_tokens := mapEmpty,
    store := storeEmpty, env := envC2 }

/-- The C2 intermediate state: first 401 consumed, primary cache cleared. -/
def envC2b : Env :=
  { stC2.env with getQ := updf stC2.env.getQ base_primary [HResp.resp 401 ""] }

def s3C2 : St :=
  { stC2 with
    cached_tokens := updf stC2.cached_tokens base_primary (some none),
    env := envC2b }

def s4C2 : St := (bearer_token base_primary 1000 s3C2).2.1

def ev4C2 : List Event := (bearer_token base_primary 1000 s3C2).2.2

/-- The C2 state at the failover handover: both primary responses consumed. -/
def s5C2 : St :=
  { s4C2 with env := { s4C2.env with getQ := updf s4C2.env.getQ base_primary [] } }

/-- Scenario for the claim C7 counterexample: the primary PUT fails with a
network error, the secondary answers 401 to every PUT, and the secondary
login endpoint can keep issuing tokens — the PUT is then re-sent to the
secondary again and again by the executor's own failover recursion. -/
def mapC7 : String → Option (Option String) :=
  updf (updf mapEmpty base_primary (some (some "T0"))) base_secondary (some (some "S0"))

def envC7 : Env :=
  { loginQ := qOnly base_secondary
      [HResp.resp 200 (authBody "U1" "R1"), HResp.resp 200 (authBody "U2" "R2")],
    refreshQ := fun _ => [],
    getQ := fun _ => [],
    putQ := qBoth [HResp.netErr]
      [HResp.resp 401 "", HResp.resp 401 "", HResp.resp 401 "", HResp.resp 401 ""] }

def stC7 : St :=
  { cached_tokens := mapC7, refresh_tokens := mapEmpty,
    store := storeEmpty, env := envC7 }

/-- Scenario for the claim C7 witness: a secondary-endpoint PUT leg that
answers 401 twice. -/
def mapC7b : String → Option (Option String) :=
  updf mapEmpty base_secondary (some (some "S0"))

def envC7b : Env :=
  { loginQ := qOnly base_secondary [HResp.resp 200 (authBody "U1" "R1")],
    refreshQ := fun _ => [],
    getQ := fun _ => [],
    putQ := qOnly base_secondary [HResp.resp 401 "", HResp.resp 401 ""] }

def stC7b : St :=
  { cached_tokens := mapC7b, refresh_tokens := mapEmpty,
    store := storeEmpty, env := envC7b }

def envC7c : Env :=
  { stC7b.env with putQ := updf stC7b.env.putQ base_secondary [HResp.resp 401 ""] }

def s3C7 : St :=
  { stC7b with
    cached_tokens := updf stC7b.cached_tokens base_secondary (some none),
    env := envC7c }

def s4C7 : St := (bearer_token base_secondary 1000 s3C7).2.1

def ev4C7 : List Event := (bearer_token base_secondary 1000 s3C7).2.2

def s5C7 : St :=
  { s4C7 with env := { s4C7.env with putQ := updf s4C7.env.putQ base_secondary [] } }

/-- Scenario for the claim C8 counterexample: primary always fails (with
401s), secondary returns 200 — the primary is then attempted twice, not
once. -/
def bodyC8 : String := "\x7b\"data\":[2]\x7d"

def jC8 : JVal := JVal.jobj [("data", JVal.jarr [JVal.jint 2])]

def mapC8 : String → Option (Option String) :=
  updf (updf mapEmpty base_primary (some (some "T0"))) base_secondary (some (some "S0"))

def envC8 : Env :=
  { loginQ := qOnly base_primary [HResp.resp 200 (authBody "T1" "R1")],
    refreshQ := fun _ => [],
    getQ := qBoth [HResp.resp 401 "", HResp.resp 401 ""] [HResp.resp 200 bodyC8],
    putQ := fun _ => [] }

def stC8 : St :=
  { cached_tokens := mapC8, refresh_tokens := mapEmpty,
    store := storeEmpty, env := envC8 }

/-- A response on which an executor raises after a single request to the
given URL: a network error, or an HTTP error status that is not 401 and
whose error text (status digits plus URL) does not contain 401 — exactly the
conditions under which neither the auth retry nor the except clause's
secondary recursion fires. -/
def failsImmediately (url : String) (r : HResp) : Prop :=
  r = HResp.netErr
  ∨ ∃ st body0, r = HResp.resp st body0 ∧ 400 ≤ st ∧ st < 600
      ∧ (st == 401) = false ∧ errHas401 st url = false

/-- Scenario for the claim C8 witness, GET side: primary always fails with
an HTTP 500, secondary returns 200. -/
def envC8c : Env :=
  { loginQ := fun _ => [], refreshQ := fun _ => [],
    getQ := qBoth [HResp.resp 500 "oops"] [HResp.resp 200 bodyC8],
    putQ := fun _ => [] }

def stC8c : St :=
  { cached_tokens := mapC8, refresh_tokens := mapEmpty,
    store := storeEmpty, env := envC8c }

/-- Scenario for the claim C8 witness, PUT side: primary always fails with a
network error, secondary returns 200. -/
def envC8d : Env :=
  { loginQ := fun _ => [], refreshQ := fun _ => [],
    getQ := fun _ => [],
    putQ := qBoth [HResp.netErr] [HResp.resp 200 bodyC8] }

def stC8d : St :=
  { cached_tokens := mapC8, refresh_tokens := mapEmpty,
    store := storeEmpty, env := envC8d }

/-- Scenario for the claim C8 counterexample, PUT side: the primary PUT
queue answers 401 twice, the secondary 200, with a login response available
for the primary re-fetch. -/
def envC8p : Env :=
  { loginQ := qOnly base_primary [HResp.resp 200 (authBody "T1" "R1")],
    refreshQ := fun _ => [],
    getQ := fun _ => [],
    putQ := qBoth [HResp.resp 401 "", HResp.resp 401 ""] [HResp.resp 200 bodyC8] }

def stC8p : St :=
  { cached_tokens := mapC8, refresh_tokens := mapEmpty,
    store := storeEmpty, env := envC8p }

/-- Scenario for the claim C9 witness: one cached-token GET answered 200. -/
def mapC9 : String → Option (Option String) :=
  updf mapEmpty base_primary (some (some "T9"))

def envC9 : Env :=
  { loginQ := fun _ => [], refreshQ := fun _ => [],
    getQ := qOnly base_primary [HResp.resp 200 "\x7b\x7d"],
    putQ := fun _ => [] }

def stC9 : St :=
  { cached_tokens := mapC9, refresh_tokens := mapEmpty,
    store := storeEmpty, env := envC9 }

-- ===================== THEOREMS =====================

theorem get_jwt_exp_empty : get_jwt_exp "" = 0 := by decide

/-- Claim C4 (amended): save_token records as expires_at exactly the value of
get_jwt_exp on the access token — obtained by splitting on dots and taking the
segment at index 1 (so at least two segments are required, not exactly three,
and segments beyond the third are ignored), padding and decoding it with the
standard base64 alphabet (not base64url), JSON-parsing and reading exp with
default 0, any failure yielding 0 — and whenever that value is 0 the
immediately following load for the endpoint returns absent. -/
theorem claim_C4_theorem (a r bu : String) (now : Nat) (s : St) :
    ((save_token a r bu s).1.store.read (get_token_columns bu)).exp
      = some (get_jwt_exp a)
    ∧ (get_jwt_exp a = 0 → (load_token bu now (save_token a r bu s).1).1 = none) := by
  constructor
  · cases h : get_token_columns bu <;>
      simp [save_token, Store.read, Store.write, h]
  · intro h0
    cases h : get_token_columns bu <;>
      simp [save_token, load_token, load_token_res, Store.read, Store.write, h, h0]

/-- Claim C4 witness: the malformed token "garbage" decodes to 0 and the load
right after saving it is absent. -/
theorem claim_C4_witness :
    get_jwt_exp "garbage" = 0
    ∧ ((save_token "garbage" "r" base_primary stEmpty).1.store.read
        (get_token_columns base_primary)).exp = some (get_jwt_exp "garbage")
    ∧ (load_token base_primary 1000 (save_token "garbage" "r" base_primary stEmpty).1).1
        = none :=
  ⟨by decide, ( claim_C4_theorem "garbage" "r" base_primary 1000 stEmpty).1,
    ( claim_C4_theorem "garbage" "r" base_primary 1000 stEmpty).2 (by decide)⟩

/-- Claim C4 counterexample: the two-segment token x.eyJleHAiOjk5fQ is
malformed by the claim's definition (not three dot-separated segments) yet
save computes expires_at 99, not 0, and the following load (at now = 0)
returns the record; moreover on a three-part token whose payload uses the
base64url alphabet the code's standard-alphabet decode yields 0 where the
claimed base64url decode yields 77 — get_jwt_exp_spec is the spec-worded
extractor. -/
theorem claim_C4_counterexample :
    get_jwt_exp "x.eyJleHAiOjk5fQ" = 99
    ∧ get_jwt_exp_spec "x.eyJleHAiOjk5fQ" = 0
    ∧ get_jwt_exp "h.eyJleHAiOjc3LCJhIjoiMDA-In0.s" = 0
    ∧ get_jwt_exp_spec "h.eyJleHAiOjc3LCJhIjoiMDA-In0.s" = 77
    ∧ (load_token base_primary 0
        (save_token "x.eyJleHAiOjk5fQ" "r" base_primary stEmpty).1).1
      = some { access_token := "x.eyJleHAiOjk5fQ", refresh_token := some "r", exp := 99 } :=
  ⟨by decide, by decide, by decide, by decide, by decide⟩

/-- Claim C6 (confirmed): the store round-trip — saving the pair (a, r) for an
endpoint and loading it back returns the record with that pair and the expiry
decoded from a when that expiry exceeds now + 60, and returns absent
otherwise. -/
theorem claim_C6_theorem (bu a r : String) (now : Nat) (s : St) :
    (get_jwt_exp a > (now : Int) + 60 →
      (load_token bu now (save_token a r bu s).1).1 =
        some { access_token := a, refresh_token := some r, exp := get_jwt_exp a })
    ∧ (get_jwt_exp a ≤ (now : Int) + 60 →
      (load_token bu now (save_token a r bu s).1).1 = none) := by
  constructor
  · intro hgt
    have hne : get_jwt_exp a ≠ 0 := by
      intro h0; rw [h0] at hgt; omega
    have ha : a ≠ "" := by
      intro he; rw [he, get_jwt_exp_empty] at hgt; omega
    cases h : get_token_columns bu <;>
      simp [save_token, load_token, load_token_res, Store.read, Store.write, h, ha, hne, hgt]
  · intro hle
    by_cases ha : a = ""
    · cases h : get_token_columns bu <;>
        simp [save_token, load_token, load_token_res, Store.read, Store.write, h, ha]
    · by_cases hz : get_jwt_exp a = 0
      · cases h : get_token_columns bu <;>
          simp [save_token, load_token, load_token_res, Store.read, Store.write, h, ha, hz]
      · have hng : ¬ get_jwt_exp a > (now : Int) + 60 := by omega
        cases h : get_token_columns bu <;>
          simp [save_token, load_token, load_token_res, Store.read, Store.write, h, ha, hz, hng]

/-- Claim C6 witness: a well-formed token with expiry 9999999999 round-trips at
now = 1000, and an expiry-10 token loads as absent at now = 1000. -/
theorem claim_C6_witness :
    (get_jwt_exp "h.eyJleHAiOjk5OTk5OTk5OTl9.s" > (1000 : Int) + 60
      ∧ (load_token base_primary 1000
          (save_token "h.eyJleHAiOjk5OTk5OTk5OTl9.s" "r" base_primary stEmpty).1).1 =
        some { access_token := "h.eyJleHAiOjk5OTk5OTk5OTl9.s",
               refresh_token := some "r", exp := get_jwt_exp "h.eyJleHAiOjk5OTk5OTk5OTl9.s" })
    ∧ (get_jwt_exp "h.eyJleHAiOjEwfQ.s" ≤ (1000 : Int) + 60
      ∧ (load_token base_primary 1000
          (save_token "h.eyJleHAiOjEwfQ.s" "r" base_primary stEmpty).1).1 = none) :=
  ⟨⟨by decide,
    ( claim_C6_theorem base_primary "h.eyJleHAiOjk5OTk5OTk5OTl9.s" "r" 1000 stEmpty).1 (by decide)⟩,
   ⟨by decide,
    ( claim_C6_theorem base_primary "h.eyJleHAiOjEwfQ.s" "r" 1000 stEmpty).2 (by decide)⟩⟩

/-- Claim C10 (confirmed): when the in-memory cache holds a non-empty token for
an endpoint, bearer_token returns it as-is with an unchanged state and no
store read, auth call or resource request — the token's expiry claim is never
examined (the statement holds for tokens of any decoded expiry). -/
theorem claim_C10_theorem (bu t : String) (now : Nat) (s : St)
    (hc : s.cached_tokens bu = some (some t)) (ht : t ≠ "") :
    bearer_token bu now s = (Except.ok t, s, [Event.bearerIssued bu t]) := by
  simp [bearer_token, hc, ht]

/-- Claim C10 witness: a cached token whose decoded expiry (10) is far in the
past is still handed out unchanged at now = 1000, with no other events. -/
theorem claim_C10_witness :
    get_jwt_exp "h.eyJleHAiOjEwfQ.s" = 10
    ∧ bearer_token base_primary 1000 stC10
      = (Except.ok "h.eyJleHAiOjEwfQ.s", stC10,
         [Event.bearerIssued base_primary "h.eyJleHAiOjEwfQ.s"]) :=
  ⟨by decide,
   claim_C10_theorem base_primary "h.eyJleHAiOjEwfQ.s" 1000 stC10
     (by decide) (by decide)⟩

theorem load_token_state (bu : String) (now : Nat) (s : St) :
    (load_token bu now s).2.1 = s := rfl

/-- Unfolding of get_valid_token through the result of the initial load. -/
theorem gvt_eq (bu : String) (now : Nat) (s : St) :
    get_valid_token bu now s =
      (let s2 := match (load_token bu now s).1 with
        | some c =>
          { s with
            cached_tokens := updf s.cached_tokens bu (some (some c.access_token)),
            refresh_tokens := updf s.refresh_tokens bu (some c.refresh_token) }
        | none => s
       match s2.refresh_tokens bu with
       | some rtok =>
         let (rres, s3, ev2) := refresh_token bu rtok s2
         match rres with
         | Except.ok a =>
           (Except.ok a,
            { s3 with cached_tokens := updf s3.cached_tokens bu (some (some a)) },
            [Event.refetch bu, Event.dbLoad bu] ++ ev2)
         | Except.error _ =>
           gvtLogin bu now s3 ([Event.refetch bu, Event.dbLoad bu] ++ ev2)
       | none => gvtLogin bu now s2 [Event.refetch bu, Event.dbLoad bu]) := rfl

/-- Claim C1 (amended): when load returns a present record, get_valid_token
seeds both in-memory dicts from it but does not return the stored access
token or stop: it always proceeds to a remote token-refresh call (observable
as a refreshReq event carrying the seeded refresh token), and when that
refresh succeeds the value returned — and cached — is the refresh response's
fresh access token, the seeded refresh token remaining in the refresh dict. -/
theorem claim_C1_theorem (bu : String) (now : Nat) (s : St) (rec : TokenRec)
    (st2 : Nat) (body : String) (q : List HResp) (a r2 : String)
    (hl : (load_token bu now s).1 = some rec)
    (hq : s.env.refreshQ bu = HResp.resp st2 body :: q)
    (hst : st2 < 400)
    (hp : parseAuthBody body = some (a, r2)) :
    (get_valid_token bu now s).1 = Except.ok a
    ∧ Event.refreshReq bu rec.refresh_token ∈ (get_valid_token bu now s).2.2
    ∧ (get_valid_token bu now s).2.1.cached_tokens bu = some (some a)
    ∧ (get_valid_token bu now s).2.1.refresh_tokens bu = some rec.refresh_token := by
  have hst' : ¬ 400 ≤ st2 := by omega
  rw [gvt_eq, hl]
  simp only [updf, beq_self_eq_true, if_true, refresh_token, popRefresh, hq, hst',
    if_false, hp, save_token]
  simp

/-- Claim C1 counterexample: with a valid stored record (A, R, exp 5000) at
now = 1000 and a refresh endpoint answering with token B, get_valid_token
does not return the stored token A and does not stay off the network: it
issues a refresh request and returns the fresh token B. -/
theorem claim_C1_counterexample :
    (load_token base_primary 1000 stC1).1 =
      some { access_token := "A", refresh_token := some "R", exp := 5000 }
    ∧ (get_valid_token base_primary 1000 stC1).1 = Except.ok "B"
    ∧ (get_valid_token base_primary 1000 stC1).2.2 =
        [Event.refetch base_primary, Event.dbLoad base_primary,
         Event.refreshReq base_primary (some "R"),
         Event.dbSave base_primary "B" "R2" 0] :=
  ⟨by decide, by decide, by decide⟩

/-- Claim C1 witness: the amended statement instantiated on the stC1
scenario. -/
theorem claim_C1_witness :
    ((load_token base_primary 1000 stC1).1 =
        some { access_token := "A", refresh_token := some "R", exp := 5000 }
      ∧ stC1.env.refreshQ base_primary = HResp.resp 200 (authBody "B" "R2") :: []
      ∧ parseAuthBody (authBody "B" "R2") = some ("B", "R2"))
    ∧ ((get_valid_token base_primary 1000 stC1).1 = Except.ok "B"
      ∧ Event.refreshReq base_primary (some "R")
          ∈ (get_valid_token base_primary 1000 stC1).2.2
      ∧ (get_valid_token base_primary 1000 stC1).2.1.cached_tokens base_primary
          = some (some "B")
      ∧ (get_valid_token base_primary 1000 stC1).2.1.refresh_tokens base_primary
          = some (some "R")) :=
  ⟨⟨by decide, by decide, by decide⟩,
   claim_C1_theorem base_primary 1000 stC1
     { access_token := "A", refresh_token := some "R", exp := 5000 }
     200 (authBody "B" "R2") [] "B" "R2"
     (by decide) (by decide) (by decide) (by decide)⟩

theorem login_ok_src (bu : String) (s : St) (tok : String)
    (h : (login bu s).1 = Except.ok tok) :
    ∃ st2 body q r2, s.env.loginQ bu = HResp.resp st2 body :: q
      ∧ ¬(400 ≤ st2 ∧ st2 < 600) ∧ parseAuthBody body = some (tok, r2) := by
  rcases hq : s.env.loginQ bu with _ | ⟨hd, q⟩
  · simp [login, popLogin, hq] at h
  · cases hd with
    | netErr => simp [login, popLogin, hq] at h
    | resp st2 body =>
      by_cases hst : 400 ≤ st2 ∧ st2 < 600
      · simp [login, popLogin, hq, hst] at h
      · rcases hp : parseAuthBody body with _ | ⟨a, r2⟩
        · simp [login, popLogin, hq, hst, hp] at h
        · simp [login, popLogin, hq, hst, hp, save_token] at h
          exact ⟨st2, body, q, r2, rfl, hst, by rw [hp, h]⟩

theorem refresh_ok_src (bu : String) (rtok : Option String) (s : St) (tok : String)
    (h : (refresh_token bu rtok s).1 = Except.ok tok) :
    ∃ st2 body q r2, s.env.refreshQ bu = HResp.resp st2 body :: q
      ∧ st2 < 400 ∧ parseAuthBody body = some (tok, r2) := by
  rcases hq : s.env.refreshQ bu with _ | ⟨hd, q⟩
  · simp [refresh_token, popRefresh, hq] at h
  · cases hd with
    | netErr => simp [refresh_token, popRefresh, hq] at h
    | resp st2 body =>
      by_cases hst : 400 ≤ st2
      · simp [refresh_token, popRefresh, hq, hst] at h
      · rcases hp : parseAuthBody body with _ | ⟨a, r2⟩
        · simp [refresh_token, popRefresh, hq, hst, hp] at h
        · simp [refresh_token, popRefresh, hq, hst, hp, save_token] at h
          exact ⟨st2, body, q, r2, rfl, by omega, by rw [hp, h]⟩

theorem refresh_env_loginQ (bu : String) (rtok : Option String) (s : St) :
    (refresh_token bu rtok s).2.1.env.loginQ = s.env.loginQ := by
  rcases hq : s.env.refreshQ bu with _ | ⟨hd, q⟩
  · simp [refresh_token, popRefresh, hq]
  · cases hd with
    | netErr => simp [refresh_token, popRefresh, hq, updf]
    | resp st2 body =>
      by_cases hst : 400 ≤ st2
      · simp [refresh_token, popRefresh, hq, hst, updf]
      · rcases hp : parseAuthBody body with _ | ⟨a, r2⟩
        · simp [refresh_token, popRefresh, hq, hst, hp, updf]
        · simp [refresh_token, popRefresh, hq, hst, hp, save_token, updf]

theorem gvtLogin_ok_src (bu : String) (now : Nat) (s : St) (ev : List Event) (tok : String)
    (h : (gvtLogin bu now s ev).1 = Except.ok tok) :
    (login bu s).1 = Except.ok tok := by
  rcases hl : login bu s with ⟨lres, s1, ev1⟩
  cases lres with
  | ok a =>
    have : a = tok := by simpa [gvtLogin, hl] using h
    simp [this]
  | error e => simp [gvtLogin, hl] at h

theorem gvt_ok_src (bu : String) (now : Nat) (s : St) (tok : String)
    (h : (get_valid_token bu now s).1 = Except.ok tok) :
    (∃ st2 body q r2, s.env.refreshQ bu = HResp.resp st2 body :: q ∧ st2 < 400
       ∧ parseAuthBody body = some (tok, r2))
    ∨ (∃ st2 body q r2, s.env.loginQ bu = HResp.resp st2 body :: q
       ∧ ¬(400 ≤ st2 ∧ st2 < 600) ∧ parseAuthBody body = some (tok, r2)) := by
  rw [gvt_eq] at h
  rcases hload : (load_token bu now s).1 with _ | rec <;> rw [hload] at h
  · rcases hrt : s.refresh_tokens bu with _ | rtok <;> simp only [hrt] at h
    · exact Or.inr (login_ok_src bu s tok (gvtLogin_ok_src bu now s _ tok h))
    · rcases hr : refresh_token bu rtok s with ⟨rres, s3, ev2⟩
      rw [hr] at h
      cases rres with
      | ok a =>
        refine Or.inl ?_
        have ha : a = tok := by simpa using h
        exact refresh_ok_src bu rtok s tok (by rw [hr, ha])
      | error e =>
        simp only at h
        have hlog := login_ok_src bu s3 tok (gvtLogin_ok_src bu now s3 _ tok h)
        have henv : s3.env.loginQ = s.env.loginQ := by
          have := refresh_env_loginQ bu rtok s
          rw [hr] at this
          exact this
        rw [henv] at hlog
        exact Or.inr hlog
  · have hrt : (updf s.refresh_tokens bu (some rec.refresh_token)) bu
        = some rec.refresh_token := by simp [updf]
    simp only [hrt] at h
    rcases hr : refresh_token bu rec.refresh_token
        { s with
          cached_tokens := updf s.cached_tokens bu (some (some rec.access_token)),
          refresh_tokens := updf s.refresh_tokens bu (some rec.refresh_token) }
      with ⟨rres, s3, ev2⟩
    rw [hr] at h
    cases rres with
    | ok a =>
      refine Or.inl ?_
      have ha : a = tok := by simpa using h
      exact refresh_ok_src bu rec.refresh_token
        { s with
          cached_tokens := updf s.cached_tokens bu (some (some rec.access_token)),
          refresh_tokens := updf s.refresh_tokens bu (some rec.refresh_token) }
        tok (by rw [hr, ha])
    | error e =>
      simp only at h
      have hlog := login_ok_src bu s3 tok (gvtLogin_ok_src bu now s3 _ tok h)
      have henv : s3.env.loginQ = s.env.loginQ := by
        have := refresh_env_loginQ bu rec.refresh_token
          { s with
            cached_tokens := updf s.cached_tokens bu (some (some rec.access_token)),
            refresh_tokens := updf s.refresh_tokens bu (some rec.refresh_token) }
        rw [hr] at this
        exact this
      rw [henv] at hlog
      exact Or.inr hlog

theorem load_exp_gt (bu : String) (now : Nat) (s : St) (rec : TokenRec)
    (h : (load_token bu now s).1 = some rec) : rec.exp > (now : Int) + 60 := by
  simp only [load_token, load_token_res] at h
  rcases ha : (s.store.read (get_token_columns bu)).access with _ | ta <;>
    rw [ha] at h
  · simp at h
  · by_cases hta : ta == ""
    · simp [hta] at h
    · simp only [hta, if_false, Bool.false_eq_true] at h
      split at h
      · rename_i hcond
        rcases Option.some.injEq .. ▸ h with rfl
        simp only [Bool.and_eq_true, bne_iff_ne, decide_eq_true_eq] at hcond
        simpa using hcond.2
      · simp at h

/-- Claim C3 (amended): the 60-second expiry margin applies only to tokens
taken from the persistent store — a record loaded there always has expiry
beyond now + 60 — but get_valid_token itself never returns a stored token:
every token it returns is the access token of the head refresh response or of
the head login response for that endpoint, returned without any inspection of
its expiry claim, so a server-issued token already at or past now + 60 is
returned as-is. -/
theorem claim_C3_theorem (bu : String) (now : Nat) (s : St) (tok : String)
    (h : (get_valid_token bu now s).1 = Except.ok tok) :
    ((∃ st2 body q r2, s.env.refreshQ bu = HResp.resp st2 body :: q ∧ st2 < 400
        ∧ parseAuthBody body = some (tok, r2))
     ∨ (∃ st2 body q r2, s.env.loginQ bu = HResp.resp st2 body :: q
        ∧ ¬(400 ≤ st2 ∧ st2 < 600) ∧ parseAuthBody body = some (tok, r2)))
    ∧ (∀ rec, (load_token bu now s).1 = some rec → rec.exp > (now : Int) + 60) :=
  ⟨gvt_ok_src bu now s tok h, fun rec hrec => load_exp_gt bu now s rec hrec⟩

/-- Claim C3 counterexample: with an empty store and a login endpoint that
answers 200 with a token whose decoded expiry is 10, get_valid_token at
now = 1000 returns that token although its expiry 10 is at or below
now + 60 = 1060. -/
theorem claim_C3_counterexample :
    (get_valid_token base_primary 1000 stC3).1 = Except.ok "h.eyJleHAiOjEwfQ.s"
    ∧ get_jwt_exp "h.eyJleHAiOjEwfQ.s" = 10
    ∧ ((10 : Int) ≤ (1000 : Int) + 60) :=
  ⟨by decide, by decide, by decide⟩

/-- Claim C3 witness: the amended statement instantiated on the stC3
scenario, where the returned token is the login response's token. -/
theorem claim_C3_witness :
    ((get_valid_token base_primary 1000 stC3).1 = Except.ok "h.eyJleHAiOjEwfQ.s")
    ∧ (((∃ st2 body q r2, stC3.env.refreshQ base_primary = HResp.resp st2 body :: q
          ∧ st2 < 400 ∧ parseAuthBody body = some ("h.eyJleHAiOjEwfQ.s", r2))
       ∨ (∃ st2 body q r2, stC3.env.loginQ base_primary = HResp.resp st2 body :: q
          ∧ ¬(400 ≤ st2 ∧ st2 < 600)
          ∧ parseAuthBody body = some ("h.eyJleHAiOjEwfQ.s", r2)))
      ∧ (∀ rec, (load_token base_primary 1000 stC3).1 = some rec →
          rec.exp > (1000 : Int) + 60)) :=
  ⟨by decide,
   claim_C3_theorem base_primary 1000 stC3 "h.eyJleHAiOjEwfQ.s" (by decide)⟩

theorem login_trace_auth (bu : String) (s : St) :
    ∀ e ∈ (login bu s).2.2, evIsAuthTrace e = true := by
  rcases hq : s.env.loginQ bu with _ | ⟨hd, q⟩
  · simp [login, popLogin, hq, evIsAuthTrace]
  · cases hd with
    | netErr => simp [login, popLogin, hq, evIsAuthTrace]
    | resp st2 body =>
      by_cases hst : 400 ≤ st2 ∧ st2 < 600
      · simp [login, popLogin, hq, hst, evIsAuthTrace]
      · rcases hp : parseAuthBody body with _ | ⟨a, r2⟩
        · simp [login, popLogin, hq, hst, hp, evIsAuthTrace]
        · simp [login, popLogin, hq, hst, hp, save_token, evIsAuthTrace]

theorem refresh_trace_auth (bu : String) (rtok : Option String) (s : St) :
    ∀ e ∈ (refresh_token bu rtok s).2.2, evIsAuthTrace e = true := by
  rcases hq : s.env.refreshQ bu with _ | ⟨hd, q⟩
  · simp [refresh_token, popRefresh, hq, evIsAuthTrace]
  · cases hd with
    | netErr => simp [refresh_token, popRefresh, hq, evIsAuthTrace]
    | resp st2 body =>
      by_cases hst : 400 ≤ st2
      · simp [refresh_token, popRefresh, hq, hst, evIsAuthTrace]
      · rcases hp : parseAuthBody body with _ | ⟨a, r2⟩
        · simp [refresh_token, popRefresh, hq, hst, hp, evIsAuthTrace]
        · simp [refresh_token, popRefresh, hq, hst, hp, save_token, evIsAuthTrace]

theorem gvtLogin_trace_auth (bu : String) (now : Nat) (s : St) (ev : List Event)
    (hev : ∀ e ∈ ev, evIsAuthTrace e = true) :
    ∀ e ∈ (gvtLogin bu now s ev).2.2, evIsAuthTrace e = true := by
  rcases hl : login bu s with ⟨lres, s1, ev1⟩
  have hev1 : ∀ e ∈ ev1, evIsAuthTrace e = true := by
    have h2 := login_trace_auth bu s
    rw [hl] at h2
    exact h2
  cases lres with
  | ok a =>
    intro e he
    simp only [gvtLogin, hl, load_token] at he
    rcases List.mem_append.mp he with h1 | h2
    · rcases List.mem_append.mp h1 with h3 | h4
      · exact hev e h3
      · exact hev1 e h4
    · rw [List.mem_singleton] at h2
      subst h2
      rfl
  | error e2 =>
    intro e he
    simp only [gvtLogin, hl] at he
    rcases List.mem_append.mp he with h1 | h2
    · exact hev e h1
    · exact hev1 e h2

theorem gvt_trace_auth (bu : String) (now : Nat) (s : St) :
    ∀ e ∈ (get_valid_token bu now s).2.2, evIsAuthTrace e = true := by
  have hbase : ∀ e ∈ [Event.refetch bu, Event.dbLoad bu], evIsAuthTrace e = true := by
    intro e he
    rcases List.mem_cons.mp he with rfl | he2
    · rfl
    · rcases List.mem_cons.mp he2 with rfl | he3
      · rfl
      · simp at he3
  rw [gvt_eq]
  rcases hload : (load_token bu now s).1 with _ | rec <;> simp only
  · rcases hrt : s.refresh_tokens bu with _ | rtok <;> simp only [hrt]
    · exact gvtLogin_trace_auth bu now s _ hbase
    · rcases hr : refresh_token bu rtok s with ⟨rres, s3, ev2⟩
      have hev2 : ∀ e ∈ ev2, evIsAuthTrace e = true := by
        have h2 := refresh_trace_auth bu rtok s
        rw [hr] at h2
        exact h2
      have hcomb : ∀ e ∈ [Event.refetch bu, Event.dbLoad bu] ++ ev2,
          evIsAuthTrace e = true := by
        intro e he
        rcases List.mem_append.mp he with h1 | h2
        · exact hbase e h1
        · exact hev2 e h2
      cases rres with
      | ok a => intro e he; exact hcomb e he
      | error e2 => exact gvtLogin_trace_auth bu now s3 _ hcomb
  · have hrt : (updf s.refresh_tokens bu (some rec.refresh_token)) bu
        = some rec.refresh_token := by simp [updf]
    simp only [hrt]
    rcases hr : refresh_token bu rec.refresh_token
        { s with
          cached_tokens := updf s.cached_tokens bu (some (some rec.access_token)),
          refresh_tokens := updf s.refresh_tokens bu (some rec.refresh_token) }
      with ⟨rres, s3, ev2⟩
    have hev2 : ∀ e ∈ ev2, evIsAuthTrace e = true := by
      have h2 := refresh_trace_auth bu rec.refresh_token
        { s with
          cached_tokens := updf s.cached_tokens bu (some (some rec.access_token)),
          refresh_tokens := updf s.refresh_tokens bu (some rec.refresh_token) }
      rw [hr] at h2
      exact h2
    have hcomb : ∀ e ∈ [Event.refetch bu, Event.dbLoad bu] ++ ev2,
        evIsAuthTrace e = true := by
      intro e he
      rcases List.mem_append.mp he with h1 | h2
      · exact hbase e h1
      · exact hev2 e h2
    cases rres with
    | ok a => intro e he; exact hcomb e he
    | error e2 => exact gvtLogin_trace_auth bu now s3 _ hcomb

theorem bearer_trace_auth (bu : String) (now : Nat) (s : St) :
    ∀ e ∈ (bearer_token bu now s).2.2, evIsAuthTrace e = true := by
  unfold bearer_token
  rcases hc : s.cached_tokens bu with _ | ct
  · rcases hg : get_valid_token bu now s with ⟨gres, s1, ev⟩
    have hev : ∀ e ∈ ev, evIsAuthTrace e = true := by
      have h2 := gvt_trace_auth bu now s
      rw [hg] at h2
      exact h2
    cases gres with
    | ok a =>
      intro e he
      simp only at he
      rcases List.mem_append.mp he with h1 | h2
      · exact hev e h1
      · rw [List.mem_singleton] at h2
        subst h2
        rfl
    | error e2 => intro e he; exact hev e he
  · rcases ct with _ | t
    · rcases hg : get_valid_token bu now s with ⟨gres, s1, ev⟩
      have hev : ∀ e ∈ ev, evIsAuthTrace e = true := by
        have h2 := gvt_trace_auth bu now s
        rw [hg] at h2
        exact h2
      cases gres with
      | ok a =>
        intro e he
        simp only at he
        rcases List.mem_append.mp he with h1 | h2
        · exact hev e h1
        · rw [List.mem_singleton] at h2
          subst h2
          rfl
      | error e2 => intro e he; exact hev e he
    · by_cases ht : t == ""
      · rcases hg : get_valid_token bu now s with ⟨gres, s1, ev⟩
        have hev : ∀ e ∈ ev, evIsAuthTrace e = true := by
          have h2 := gvt_trace_auth bu now s
          rw [hg] at h2
          exact h2
        simp only [ht]
        cases gres with
        | ok a =>
          intro e he
          simp only at he
          rcases List.mem_append.mp he with h1 | h2
          · exact hev e h1
          · rw [List.mem_singleton] at h2
            subst h2
            rfl
        | error e2 => intro e he; exact hev e he
      · intro e he
        simp only [ht, Bool.false_eq_true, if_false] at he
        rw [List.mem_singleton] at he
        subst he
        rfl

theorem login_env_gp (bu : String) (s : St) :
    (login bu s).2.1.env.getQ = s.env.getQ ∧ (login bu s).2.1.env.putQ = s.env.putQ := by
  rcases hq : s.env.loginQ bu with _ | ⟨hd, q⟩
  · simp [login, popLogin, hq]
  · cases hd with
    | netErr => simp [login, popLogin, hq, updf]
    | resp st2 body =>
      by_cases hst : 400 ≤ st2 ∧ st2 < 600
      · simp [login, popLogin, hq, hst, updf]
      · rcases hp : parseAuthBody body with _ | ⟨a, r2⟩
        · simp [login, popLogin, hq, hst, hp, updf]
        · simp [login, popLogin, hq, hst, hp, save_token, updf]

theorem refresh_env_gp (bu : String) (rtok : Option String) (s : St) :
    (refresh_token bu rtok s).2.1.env.getQ = s.env.getQ
    ∧ (refresh_token bu rtok s).2.1.env.putQ = s.env.putQ := by
  rcases hq : s.env.refreshQ bu with _ | ⟨hd, q⟩
  · simp [refresh_token, popRefresh, hq]
  · cases hd with
    | netErr => simp [refresh_token, popRefresh, hq, updf]
    | resp st2 body =>
      by_cases hst : 400 ≤ st2
      · simp [refresh_token, popRefresh, hq, hst, updf]
      · rcases hp : parseAuthBody body with _ | ⟨a, r2⟩
        · simp [refresh_token, popRefresh, hq, hst, hp, updf]
        · simp [refresh_token, popRefresh, hq, hst, hp, save_token, updf]

theorem gvtLogin_env_gp (bu : String) (now : Nat) (s : St) (ev : List Event) :
    (gvtLogin bu now s ev).2.1.env.getQ = s.env.getQ
    ∧ (gvtLogin bu now s ev).2.1.env.putQ = s.env.putQ := by
  rcases hl : login bu s with ⟨lres, s1, ev1⟩
  have h2 : s1.env.getQ = s.env.getQ ∧ s1.env.putQ = s.env.putQ := by
    have h0 := login_env_gp bu s
    rw [hl] at h0
    exact h0
  cases lres with
  | ok a =>
    rcases hc2 : load_token_res bu now
        { s1 with cached_tokens := updf s1.cached_tokens bu (some (some a)) }
      with _ | cc <;>
      simp only [gvtLogin, hl, load_token, hc2] <;>
      exact ⟨h2.1, h2.2⟩
  | error e2 => simp [gvtLogin, hl, h2.1, h2.2]

theorem gvt_env_gp (bu : String) (now : Nat) (s : St) :
    (get_valid_token bu now s).2.1.env.getQ = s.env.getQ
    ∧ (get_valid_token bu now s).2.1.env.putQ = s.env.putQ := by
  rw [gvt_eq]
  rcases hload : (load_token bu now s).1 with _ | rec <;> simp only
  · rcases hrt : s.refresh_tokens bu with _ | rtok <;> simp only [hrt]
    · exact gvtLogin_env_gp bu now s _
    · rcases hr : refresh_token bu rtok s with ⟨rres, s3, ev2⟩
      have h2 := refresh_env_gp bu rtok s
      rw [hr] at h2
      cases rres with
      | ok a => simpa using h2
      | error e2 =>
        have h3 := gvtLogin_env_gp bu now s3
          ([Event.refetch bu, Event.dbLoad bu] ++ ev2)
        simp only
        exact ⟨h3.1.trans h2.1, h3.2.trans h2.2⟩
  · have hrt : (updf s.refresh_tokens bu (some rec.refresh_token)) bu
        = some rec.refresh_token := by simp [updf]
    simp only [hrt]
    rcases hr : refresh_token bu rec.refresh_token
        { s with
          cached_tokens := updf s.cached_tokens bu (some (some rec.access_token)),
          refresh_tokens := updf s.refresh_tokens bu (some rec.refresh_token) }
      with ⟨rres, s3, ev2⟩
    have h2 := refresh_env_gp bu rec.refresh_token
      { s with
        cached_tokens := updf s.cached_tokens bu (some (some rec.access_token)),
        refresh_tokens := updf s.refresh_tokens bu (some rec.refresh_token) }
    rw [hr] at h2
    cases rres with
    | ok a => simpa using h2
    | error e2 =>
      have h3 := gvtLogin_env_gp bu now s3
        ([Event.refetch bu, Event.dbLoad bu] ++ ev2)
      simp only
      exact ⟨h3.1.trans h2.1, h3.2.trans h2.2⟩

theorem bearer_env_gp (bu : String) (now : Nat) (s : St) :
    (bearer_token bu now s).2.1.env.getQ = s.env.getQ
    ∧ (bearer_token bu now s).2.1.env.putQ = s.env.putQ := by
  unfold bearer_token
  have h2 := gvt_env_gp bu now s
  rcases hg : get_valid_token bu now s with ⟨gres, s1, ev⟩
  rw [hg] at h2
  rcases hc : s.cached_tokens bu with _ | ct
  · cases gres with
    | ok a => simpa using h2
    | error e2 => simpa using h2
  · rcases ct with _ | t
    · cases gres with
      | ok a => simpa using h2
      | error e2 => simpa using h2
    · by_cases ht : t == ""
      · simp only [ht]
        cases gres with
        | ok a => simpa using h2
        | error e2 => simpa using h2
      · have ht' : (t == "") = false := by
          simpa using ht
        simp [ht']

theorem bearer_ok_issued (bu : String) (now : Nat) (s : St) (b : String)
    (h : (bearer_token bu now s).1 = Except.ok b) :
    Event.bearerIssued bu b ∈ (bearer_token bu now s).2.2 := by
  unfold bearer_token at h ⊢
  rcases hc : s.cached_tokens bu with _ | ct
  · rw [hc] at h
    rcases hg : get_valid_token bu now s with ⟨gres, s1, ev⟩
    rw [hg] at h
    cases gres with
    | ok a =>
      have hab : a = b := by simpa using h
      subst hab
      simp
    | error e2 => simp at h
  · rcases ct with _ | t
    · rw [hc] at h
      rcases hg : get_valid_token bu now s with ⟨gres, s1, ev⟩
      rw [hg] at h
      cases gres with
      | ok a =>
        have hab : a = b := by simpa using h
        subst hab
        simp
      | error e2 => simp at h
    · by_cases ht : t == ""
      · rw [hc] at h
        simp only [ht] at h ⊢
        rcases hg : get_valid_token bu now s with ⟨gres, s1, ev⟩
        rw [hg] at h
        cases gres with
        | ok a =>
          have hab : a = b := by simpa using h
          subst hab
          simp
        | error e2 => simp at h
      · have ht2 : (t == "") = false := by
          simpa using ht
        rw [hc] at h
        simp only [ht2, Bool.false_eq_true, if_false] at h ⊢
        have hab : t = b := by simpa using h
        subst hab
        simp [hc]

theorem login_refetch_zero (bu : String) (s : St) :
    ((login bu s).2.2).countP evIsRefetch = 0 := by
  rcases hq : s.env.loginQ bu with _ | ⟨hd, q⟩
  · simp [login, popLogin, hq, evIsRefetch]
  · cases hd with
    | netErr => simp [login, popLogin, hq, evIsRefetch]
    | resp st2 body =>
      by_cases hst : 400 ≤ st2 ∧ st2 < 600
      · simp [login, popLogin, hq, hst, evIsRefetch]
      · rcases hp : parseAuthBody body with _ | ⟨a, r2⟩
        · simp [login, popLogin, hq, hst, hp, evIsRefetch]
        · simp [login, popLogin, hq, hst, hp, save_token, evIsRefetch]

theorem refresh_refetch_zero (bu : String) (rtok : Option String) (s : St) :
    ((refresh_token bu rtok s).2.2).countP evIsRefetch = 0 := by
  rcases hq : s.env.refreshQ bu with _ | ⟨hd, q⟩
  · simp [refresh_token, popRefresh, hq, evIsRefetch]
  · cases hd with
    | netErr => simp [refresh_token, popRefresh, hq, evIsRefetch]
    | resp st2 body =>
      by_cases hst : 400 ≤ st2
      · simp [refresh_token, popRefresh, hq, hst, evIsRefetch]
      · rcases hp : parseAuthBody body with _ | ⟨a, r2⟩
        · simp [refresh_token, popRefresh, hq, hst, hp, evIsRefetch]
        · simp [refresh_token, popRefresh, hq, hst, hp, save_token, evIsRefetch]

theorem gvtLogin_refetch (bu : String) (now : Nat) (s : St) (ev : List Event) :
    ((gvtLogin bu now s ev).2.2).countP evIsRefetch = ev.countP evIsRefetch := by
  rcases hl : login bu s with ⟨lres, s1, ev1⟩
  have h1 : ev1.countP evIsRefetch = 0 := by
    have h0 := login_refetch_zero bu s
    rw [hl] at h0
    exact h0
  cases lres with
  | ok a =>
    rcases hc2 : load_token_res bu now
        { s1 with cached_tokens := updf s1.cached_tokens bu (some (some a)) }
      with _ | cc <;>
      simp [gvtLogin, hl, load_token, hc2, List.countP_append, h1, evIsRefetch]
  | error e2 => simp [gvtLogin, hl, List.countP_append, h1]

theorem gvt_refetch_one (bu : String) (now : Nat) (s : St) :
    ((get_valid_token bu now s).2.2).countP evIsRefetch = 1 := by
  rw [gvt_eq]
  have hbase : ([Event.refetch bu, Event.dbLoad bu]).countP evIsRefetch = 1 := by
    simp [evIsRefetch]
  rcases hload : (load_token bu now s).1 with _ | rec <;> simp only
  · rcases hrt : s.refresh_tokens bu with _ | rtok <;> simp only [hrt]
    · rw [gvtLogin_refetch]
      exact hbase
    · rcases hr : refresh_token bu rtok s with ⟨rres, s3, ev2⟩
      have h2 : ev2.countP evIsRefetch = 0 := by
        have h0 := refresh_refetch_zero bu rtok s
        rw [hr] at h0
        exact h0
      cases rres with
      | ok a => simp [List.countP_append, h2, evIsRefetch]
      | error e2 =>
        rw [gvtLogin_refetch]
        simp [List.countP_append, h2, evIsRefetch]
  · have hrt : (updf s.refresh_tokens bu (some rec.refresh_token)) bu
        = some rec.refresh_token := by simp [updf]
    simp only [hrt]
    rcases hr : refresh_token bu rec.refresh_token
        { s with
          cached_tokens := updf s.cached_tokens bu (some (some rec.access_token)),
          refresh_tokens := updf s.refresh_tokens bu (some rec.refresh_token) }
      with ⟨rres, s3, ev2⟩
    have h2 : ev2.countP evIsRefetch = 0 := by
      have h0 := refresh_refetch_zero bu rec.refresh_token
        { s with
          cached_tokens := updf s.cached_tokens bu (some (some rec.access_token)),
          refresh_tokens := updf s.refresh_tokens bu (some rec.refresh_token) }
      rw [hr] at h0
      exact h0
    cases rres with
    | ok a => simp [List.countP_append, h2, evIsRefetch]
    | error e2 =>
      rw [gvtLogin_refetch]
      simp [List.countP_append, h2, evIsRefetch]

theorem bearer_refetch_miss (bu : String) (now : Nat) (s : St)
    (hc : s.cached_tokens bu = some none) :
    ((bearer_token bu now s).2.2).countP evIsRefetch = 1 := by
  unfold bearer_token
  have h1 := gvt_refetch_one bu now s
  rcases hg : get_valid_token bu now s with ⟨gres, s1, ev⟩
  rw [hg] at h1
  rw [hc]
  cases gres with
  | ok a => simp [List.countP_append, h1, evIsRefetch]
  | error e2 => simpa using h1

/-- bearer_token on a truthy cache entry: the cached token is returned with
no state change and no event but the issuance record. -/
theorem bearer_cached_hit (bu t : String) (now : Nat) (s : St)
    (hc : s.cached_tokens bu = some (some t)) (ht : t ≠ "") :
    bearer_token bu now s = (Except.ok t, s, [Event.bearerIssued bu t]) := by
  simp [bearer_token, hc, ht]

theorem errHas401_401 (url : String) : errHas401 401 url = true := rfl

theorem auth_not_invalidate (e : Event) (bu : String)
    (h : evIsAuthTrace e = true) : evIsInvalidate bu e = false := by
  cases e <;> simp_all [evIsAuthTrace, evIsInvalidate]

theorem auth_not_getTo (e : Event) (bu : String)
    (h : evIsAuthTrace e = true) : evIsGetTo bu e = false := by
  cases e <;> simp_all [evIsAuthTrace, evIsGetTo]

theorem auth_not_putTo (e : Event) (bu : String)
    (h : evIsAuthTrace e = true) : evIsPutTo bu e = false := by
  cases e <;> simp_all [evIsAuthTrace, evIsPutTo]

/-- Claim C5 (confirmed): with a cached token for the endpoint and a scripted
response sequence [401, 200] there, the GET executor invalidates the cached
token exactly once, performs exactly one token re-fetch, retries exactly once
more on the same endpoint (two requests in total there, same path), and
returns the parsed JSON body of the 200 response. -/
theorem claim_C5_theorem (fuel : Nat) (fp bu : String) (now : Nat) (s : St)
    (t body1 body2 : String) (q : List HResp) (j : JVal)
    (b2 : String) (s4 : St) (ev4 : List Event)
    (hc : s.cached_tokens bu = some (some t)) (ht : t ≠ "")
    (hq : s.env.getQ bu = HResp.resp 401 body1 :: HResp.resp 200 body2 :: q)
    (hj : jsonParse body2 = some j)
    (hb2 : bearer_token bu now
        { s with
          cached_tokens := updf s.cached_tokens bu (some none),
          env := { s.env with getQ := updf s.env.getQ bu (HResp.resp 200 body2 :: q) } }
      = (Except.ok b2, s4, ev4)) :
    (send_api_get_call (fuel + 1) fp bu now s).1 = Except.ok j
    ∧ (send_api_get_call (fuel + 1) fp bu now s).2.2 =
        [Event.bearerIssued bu t, Event.httpGet bu fp t, Event.invalidateCache bu]
          ++ ev4 ++ [Event.httpGet bu fp b2]
    ∧ ((send_api_get_call (fuel + 1) fp bu now s).2.2).countP evIsRefetch = 1
    ∧ ((send_api_get_call (fuel + 1) fp bu now s).2.2).countP (evIsInvalidate bu) = 1
    ∧ ((send_api_get_call (fuel + 1) fp bu now s).2.2).countP (evIsGetTo bu) = 2 := by
  have hb1 := bearer_cached_hit bu t now s hc ht
  have h200 : ¬(400 ≤ 200 ∧ 200 < 600) := by omega
  have hmiss : ({ s with
      cached_tokens := updf s.cached_tokens bu (some none),
      env := { s.env with getQ := updf s.env.getQ bu (HResp.resp 200 body2 :: q) } }
        : St).cached_tokens bu = some none := by
    simp [updf]
  have hev4r : ev4.countP evIsRefetch = 1 := by
    have h0 := bearer_refetch_miss bu now
      { s with
        cached_tokens := updf s.cached_tokens bu (some none),
        env := { s.env with getQ := updf s.env.getQ bu (HResp.resp 200 body2 :: q) } }
      hmiss
    rw [hb2] at h0
    exact h0
  have hev4auth : ∀ e ∈ ev4, evIsAuthTrace e = true := by
    have h0 := bearer_trace_auth bu now
      { s with
        cached_tokens := updf s.cached_tokens bu (some none),
        env := { s.env with getQ := updf s.env.getQ bu (HResp.resp 200 body2 :: q) } }
    rw [hb2] at h0
    exact h0
  have hev4inv : ev4.countP (evIsInvalidate bu) = 0 :=
    List.countP_eq_zero.mpr (fun e he => by
      rw [auth_not_invalidate e bu (hev4auth e he)]; exact Bool.false_ne_true)
  have hev4get : ev4.countP (evIsGetTo bu) = 0 :=
    List.countP_eq_zero.mpr (fun e he => by
      rw [auth_not_getTo e bu (hev4auth e he)]; exact Bool.false_ne_true)
  have hq4 : s4.env.getQ bu = HResp.resp 200 body2 :: q := by
    have h0 := bearer_env_gp bu now
      { s with
        cached_tokens := updf s.cached_tokens bu (some none),
        env := { s.env with getQ := updf s.env.getQ bu (HResp.resp 200 body2 :: q) } }
    rw [hb2] at h0
    rw [h0.1]
    simp [updf]
  have run : send_api_get_call (fuel + 1) fp bu now s =
      (Except.ok j, { s4 with env := { s4.env with getQ := updf s4.env.getQ bu q } },
       [Event.bearerIssued bu t, Event.httpGet bu fp t, Event.invalidateCache bu]
         ++ ev4 ++ [Event.httpGet bu fp b2]) := by
    simp only [send_api_get_call, hb1, popGet, hq, hb2, hq4, finishResp, h200, hj]
    simp [finishResp, h200, hj]
  refine ⟨by rw [run], by rw [run], ?_, ?_, ?_⟩
  · rw [run]
    simp [List.countP_append, hev4r, evIsRefetch]
  · rw [run]
    simp [List.countP_append, hev4inv, evIsInvalidate, evIsRefetch]
  · rw [run]
    simp [List.countP_append, hev4get, evIsGetTo]

/-- Claim C5 witness: the [401, 200] scenario run concretely — one
invalidation, one re-fetch (a login for T1), two GETs on the primary, and the
parsed 200 body as result. -/
theorem claim_C5_witness :
    (stC5.cached_tokens base_primary = some (some "T0")
     ∧ stC5.env.getQ base_primary =
         HResp.resp 401 "" :: HResp.resp 200 bodyC5 :: []
     ∧ jsonParse bodyC5 = some jC5
     ∧ bearer_token base_primary 1000 s3C5 = (Except.ok "T1", s4C5, ev4C5))
    ∧ ((send_api_get_call 1 "/api/5.1/outputs/config" base_primary 1000 stC5).1
         = Except.ok jC5
      ∧ (send_api_get_call 1 "/api/5.1/outputs/config" base_primary 1000 stC5).2.2 =
          [Event.bearerIssued base_primary "T0",
           Event.httpGet base_primary "/api/5.1/outputs/config" "T0",
           Event.invalidateCache base_primary]
            ++ ev4C5
            ++ [Event.httpGet base_primary "/api/5.1/outputs/config" "T1"]
      ∧ ((send_api_get_call 1 "/api/5.1/outputs/config" base_primary 1000 stC5).2.2).countP
          evIsRefetch = 1
      ∧ ((send_api_get_call 1 "/api/5.1/outputs/config" base_primary 1000 stC5).2.2).countP
          (evIsInvalidate base_primary) = 1
      ∧ ((send_api_get_call 1 "/api/5.1/outputs/config" base_primary 1000 stC5).2.2).countP
          (evIsGetTo base_primary) = 2) :=
  ⟨⟨by decide, by decide, rfl, rfl⟩,
   claim_C5_theorem 0 "/api/5.1/outputs/config" base_primary 1000 stC5
     "T0" "" bodyC5 [] jC5 "T1" s4C5 ev4C5
     (by decide) (by decide) (by decide) rfl rfl⟩

/-- Claim C2 (amended): when the same-endpoint auth retry also returns a 401,
the GET executor does not raise to its caller — the except clause itself
re-invokes the executor on base_secondary (same path), after exactly two
requests on the original endpoint; it raises only for non-401 HTTP errors
and for network errors. -/
theorem claim_C2_theorem (fuel : Nat) (fp bu : String) (now : Nat) (s : St)
    (t body1 body2 : String) (q : List HResp)
    (b2 : String) (s4 : St) (ev4 : List Event)
    (hc : s.cached_tokens bu = some (some t)) (ht : t ≠ "")
    (hq : s.env.getQ bu = HResp.resp 401 body1 :: HResp.resp 401 body2 :: q)
    (hb2 : bearer_token bu now
        { s with
          cached_tokens := updf s.cached_tokens bu (some none),
          env := { s.env with getQ := updf s.env.getQ bu (HResp.resp 401 body2 :: q) } }
      = (Except.ok b2, s4, ev4)) :
    send_api_get_call (fuel + 1) fp bu now s =
      ((send_api_get_call fuel fp base_secondary now
          { s4 with env := { s4.env with getQ := updf s4.env.getQ bu q } }).1,
       (send_api_get_call fuel fp base_secondary now
          { s4 with env := { s4.env with getQ := updf s4.env.getQ bu q } }).2.1,
       [Event.bearerIssued bu t, Event.httpGet bu fp t, Event.invalidateCache bu]
         ++ ev4 ++ [Event.httpGet bu fp b2]
         ++ (send_api_get_call fuel fp base_secondary now
              { s4 with env := { s4.env with getQ := updf s4.env.getQ bu q } }).2.2)
    ∧ ([Event.bearerIssued bu t, Event.httpGet bu fp t, Event.invalidateCache bu]
         ++ ev4 ++ [Event.httpGet bu fp b2]).countP (evIsGetTo bu) = 2 := by
  have hb1 := bearer_cached_hit bu t now s hc ht
  have hev4auth : ∀ e ∈ ev4, evIsAuthTrace e = true := by
    have h0 := bearer_trace_auth bu now
      { s with
        cached_tokens := updf s.cached_tokens bu (some none),
        env := { s.env with getQ := updf s.env.getQ bu (HResp.resp 401 body2 :: q) } }
    rw [hb2] at h0
    exact h0
  have hev4get : ev4.countP (evIsGetTo bu) = 0 :=
    List.countP_eq_zero.mpr (fun e he => by
      rw [auth_not_getTo e bu (hev4auth e he)]; exact Bool.false_ne_true)
  have hq4 : s4.env.getQ bu = HResp.resp 401 body2 :: q := by
    have h0 := bearer_env_gp bu now
      { s with
        cached_tokens := updf s.cached_tokens bu (some none),
        env := { s.env with getQ := updf s.env.getQ bu (HResp.resp 401 body2 :: q) } }
    rw [hb2] at h0
    rw [h0.1]
    simp [updf]
  constructor
  · simp only [send_api_get_call, hb1, popGet, hq, hb2, hq4, finishResp, errHas401_401]
    simp [finishResp, errHas401_401]
  · simp [List.countP_append, hev4get, evIsGetTo]

/-- Claim C2 counterexample: on the [401, 401] primary sequence the executor
does not raise — it issues a request to the secondary endpoint itself and
returns the secondary's parsed body; the primary received exactly two
requests. -/
theorem claim_C2_counterexample :
    stC2.env.getQ base_primary = [HResp.resp 401 "", HResp.resp 401 ""]
    ∧ (send_api_get_call 2 "/api/5.1/outputs/config" base_primary 1000 stC2).1
        = Except.ok jC2
    ∧ ((send_api_get_call 2 "/api/5.1/outputs/config" base_primary 1000 stC2).2.2).countP
        (evIsGetTo base_secondary) = 1
    ∧ ((send_api_get_call 2 "/api/5.1/outputs/config" base_primary 1000 stC2).2.2).countP
        (evIsGetTo base_primary) = 2 :=
  ⟨by decide, rfl, by decide, by decide⟩

/-- Claim C2 witness: the amended statement instantiated on the stC2
scenario. -/
theorem claim_C2_witness :
    (stC2.cached_tokens base_primary = some (some "T0")
     ∧ stC2.env.getQ base_primary =
         HResp.resp 401 "" :: HResp.resp 401 "" :: []
     ∧ bearer_token base_primary 1000 s3C2 = (Except.ok "T1", s4C2, ev4C2))
    ∧ (send_api_get_call 2 "/api/5.1/outputs/config" base_primary 1000 stC2 =
        ((send_api_get_call 1 "/api/5.1/outputs/config" base_secondary 1000 s5C2).1,
         (send_api_get_call 1 "/api/5.1/outputs/config" base_secondary 1000 s5C2).2.1,
         [Event.bearerIssued base_primary "T0",
          Event.httpGet base_primary "/api/5.1/outputs/config" "T0",
          Event.invalidateCache base_primary]
           ++ ev4C2
           ++ [Event.httpGet base_primary "/api/5.1/outputs/config" "T1"]
           ++ (send_api_get_call 1 "/api/5.1/outputs/config" base_secondary 1000 s5C2).2.2)
      ∧ ([Event.bearerIssued base_primary "T0",
          Event.httpGet base_primary "/api/5.1/outputs/config" "T0",
          Event.invalidateCache base_primary]
           ++ ev4C2
           ++ [Event.httpGet base_primary "/api/5.1/outputs/config" "T1"]).countP
          (evIsGetTo base_primary) = 2) :=
  ⟨⟨by decide, by decide, rfl⟩,
   claim_C2_theorem 1 "/api/5.1/outputs/config" base_primary 1000 stC2
     "T0" "" "" [] "T1" s4C2 ev4C2
     (by decide) (by decide) (by decide) rfl⟩

/-- Claim C7 (amended): the PUT is re-sent with the same payload for the
single same-endpoint auth retry, and additionally, whenever that retry also
returns 401, the executor's except clause re-invokes the PUT executor on
base_secondary with the very same payload — so after the failover attempt the
PUT can be sent again (without bound while 401s persist), contrary to
at-most-once delivery past the failover. -/
theorem claim_C7_theorem (fuel : Nat) (fp pl bu : String) (now : Nat) (s : St)
    (t body1 body2 : String) (q : List HResp)
    (b2 : String) (s4 : St) (ev4 : List Event)
    (hc : s.cached_tokens bu = some (some t)) (ht : t ≠ "")
    (hq : s.env.putQ bu = HResp.resp 401 body1 :: HResp.resp 401 body2 :: q)
    (hb2 : bearer_token bu now
        { s with
          cached_tokens := updf s.cached_tokens bu (some none),
          env := { s.env with putQ := updf s.env.putQ bu (HResp.resp 401 body2 :: q) } }
      = (Except.ok b2, s4, ev4)) :
    send_api_put_call (fuel + 1) fp pl bu now s =
      ((send_api_put_call fuel fp pl base_secondary now
          { s4 with env := { s4.env with putQ := updf s4.env.putQ bu q } }).1,
       (send_api_put_call fuel fp pl base_secondary now
          { s4 with env := { s4.env with putQ := updf s4.env.putQ bu q } }).2.1,
       [Event.bearerIssued bu t, Event.httpPut bu fp pl t, Event.invalidateCache bu]
         ++ ev4 ++ [Event.httpPut bu fp pl b2]
         ++ (send_api_put_call fuel fp pl base_secondary now
              { s4 with env := { s4.env with putQ := updf s4.env.putQ bu q } }).2.2)
    ∧ ([Event.bearerIssued bu t, Event.httpPut bu fp pl t, Event.invalidateCache bu]
         ++ ev4 ++ [Event.httpPut bu fp pl b2]).countP (evIsPutTo bu) = 2 := by
  have hb1 := bearer_cached_hit bu t now s hc ht
  have hev4auth : ∀ e ∈ ev4, evIsAuthTrace e = true := by
    have h0 := bearer_trace_auth bu now
      { s with
        cached_tokens := updf s.cached_tokens bu (some none),
        env := { s.env with putQ := updf s.env.putQ bu (HResp.resp 401 body2 :: q) } }
    rw [hb2] at h0
    exact h0
  have hev4put : ev4.countP (evIsPutTo bu) = 0 :=
    List.countP_eq_zero.mpr (fun e he => by
      rw [auth_not_putTo e bu (hev4auth e he)]; exact Bool.false_ne_true)
  have hq4 : s4.env.putQ bu = HResp.resp 401 body2 :: q := by
    have h0 := bearer_env_gp bu now
      { s with
        cached_tokens := updf s.cached_tokens bu (some none),
        env := { s.env with putQ := updf s.env.putQ bu (HResp.resp 401 body2 :: q) } }
    rw [hb2] at h0
    rw [h0.2]
    simp [updf]
  constructor
  · simp only [send_api_put_call, hb1, popPut, hq, hb2, hq4, finishResp, errHas401_401]
    simp [finishResp, errHas401_401]
  · simp [List.countP_append, hev4put, evIsPutTo]

/-- Claim C7 counterexample: with the primary PUT failing on the network and
the secondary answering 401 to every PUT, the update-one-output operation
sends the same PUT to the secondary five times (two failover attempts plus
the executor's recursive re-sends), so the PUT is sent again after the
failover to the secondary has been attempted. -/
theorem claim_C7_counterexample :
    ((put_one_output "u1" "PL" 3 1000 stC7).2.2).countP (evIsPutTo base_secondary) = 5
    ∧ ((put_one_output "u1" "PL" 3 1000 stC7).2.2).countP (evIsPutTo base_primary) = 1 :=
  ⟨by decide, by decide⟩

/-- Claim C7 witness: the amended statement instantiated on the stC7b
scenario. -/
theorem claim_C7_witness :
    (stC7b.cached_tokens base_secondary = some (some "S0")
     ∧ stC7b.env.putQ base_secondary = HResp.resp 401 "" :: HResp.resp 401 "" :: []
     ∧ bearer_token base_secondary 1000 s3C7 = (Except.ok "U1", s4C7, ev4C7))
    ∧ (send_api_put_call 2 "/api/5.1/outputs/config/u1" "PL" base_secondary 1000 stC7b =
        ((send_api_put_call 1 "/api/5.1/outputs/config/u1" "PL" base_secondary 1000 s5C7).1,
         (send_api_put_call 1 "/api/5.1/outputs/config/u1" "PL" base_secondary 1000 s5C7).2.1,
         [Event.bearerIssued base_secondary "S0",
          Event.httpPut base_secondary "/api/5.1/outputs/config/u1" "PL" "S0",
          Event.invalidateCache base_secondary]
           ++ ev4C7
           ++ [Event.httpPut base_secondary "/api/5.1/outputs/config/u1" "PL" "U1"]
           ++ (send_api_put_call 1 "/api/5.1/outputs/config/u1" "PL" base_secondary
                1000 s5C7).2.2)
      ∧ ([Event.bearerIssued base_secondary "S0",
          Event.httpPut base_secondary "/api/5.1/outputs/config/u1" "PL" "S0",
          Event.invalidateCache base_secondary]
           ++ ev4C7
           ++ [Event.httpPut base_secondary "/api/5.1/outputs/config/u1" "PL" "U1"]).countP
          (evIsPutTo base_secondary) = 2) :=
  ⟨⟨by decide, by decide, rfl⟩,
   claim_C7_theorem 1 "/api/5.1/outputs/config/u1" "PL" base_secondary 1000 stC7b
     "S0" "" "" [] "U1" s4C7 ev4C7
     (by decide) (by decide) (by decide) rfl⟩

theorem save_cols_other (a r bu : String) (s : St) (c : ColSet)
    (hne : c ≠ get_token_columns bu) :
    (save_token a r bu s).1.store.read c = s.store.read c := by
  rcases hc : get_token_columns bu <;> rcases c <;>
    simp_all [save_token, Store.read, Store.write]

theorem login_dicts (bu : String) (s : St) :
    (login bu s).2.1.cached_tokens = s.cached_tokens
    ∧ (login bu s).2.1.refresh_tokens = s.refresh_tokens := by
  rcases hq : s.env.loginQ bu with _ | ⟨hd, q⟩
  · simp [login, popLogin, hq]
  · cases hd with
    | netErr => simp [login, popLogin, hq]
    | resp st2 body =>
      by_cases hst : 400 ≤ st2 ∧ st2 < 600
      · simp [login, popLogin, hq, hst]
      · rcases hp : parseAuthBody body with _ | ⟨a, r2⟩
        · simp [login, popLogin, hq, hst, hp]
        · simp [login, popLogin, hq, hst, hp, save_token]

theorem refresh_dicts (bu : String) (rtok : Option String) (s : St) :
    (refresh_token bu rtok s).2.1.cached_tokens = s.cached_tokens
    ∧ (refresh_token bu rtok s).2.1.refresh_tokens = s.refresh_tokens := by
  rcases hq : s.env.refreshQ bu with _ | ⟨hd, q⟩
  · simp [refresh_token, popRefresh, hq]
  · cases hd with
    | netErr => simp [refresh_token, popRefresh, hq]
    | resp st2 body =>
      by_cases hst : 400 ≤ st2
      · simp [refresh_token, popRefresh, hq, hst]
      · rcases hp : parseAuthBody body with _ | ⟨a, r2⟩
        · simp [refresh_token, popRefresh, hq, hst, hp]
        · simp [refresh_token, popRefresh, hq, hst, hp, save_token]

theorem gvtLogin_dicts_other (bu : String) (now : Nat) (s : St) (ev : List Event)
    (k : String) (hk : k ≠ bu) :
    (gvtLogin bu now s ev).2.1.cached_tokens k = s.cached_tokens k
    ∧ (gvtLogin bu now s ev).2.1.refresh_tokens k = s.refresh_tokens k := by
  have hkb : (k == bu) = false := beq_eq_false_iff_ne.mpr hk
  rcases hl : login bu s with ⟨lres, s1, ev1⟩
  have h2 : s1.cached_tokens = s.cached_tokens ∧ s1.refresh_tokens = s.refresh_tokens := by
    have h0 := login_dicts bu s
    rw [hl] at h0
    exact h0
  cases lres with
  | ok a =>
    rcases hc2 : load_token_res bu now
        { s1 with cached_tokens := updf s1.cached_tokens bu (some (some a)) }
      with _ | cc <;>
      simp only [gvtLogin, hl, load_token, hc2] <;>
      simp [updf, hkb, h2.1, h2.2]
  | error e2 => simp [gvtLogin, hl, h2.1, h2.2]

theorem gvt_dicts_other (bu : String) (now : Nat) (s : St) (k : String) (hk : k ≠ bu) :
    (get_valid_token bu now s).2.1.cached_tokens k = s.cached_tokens k
    ∧ (get_valid_token bu now s).2.1.refresh_tokens k = s.refresh_tokens k := by
  have hkb : (k == bu) = false := beq_eq_false_iff_ne.mpr hk
  rw [gvt_eq]
  rcases hload : (load_token bu now s).1 with _ | rec <;> simp only
  · rcases hrt : s.refresh_tokens bu with _ | rtok <;> simp only [hrt]
    · exact gvtLogin_dicts_other bu now s _ k hk
    · rcases hr : refresh_token bu rtok s with ⟨rres, s3, ev2⟩
      have h2 : s3.cached_tokens = s.cached_tokens
          ∧ s3.refresh_tokens = s.refresh_tokens := by
        have h0 := refresh_dicts bu rtok s
        rw [hr] at h0
        exact h0
      cases rres with
      | ok a => simp [updf, hkb, h2.1, h2.2]
      | error e2 =>
        have h3 := gvtLogin_dicts_other bu now s3
          ([Event.refetch bu, Event.dbLoad bu] ++ ev2) k hk
        simp only
        rw [h3.1, h3.2, h2.1, h2.2]
        exact ⟨rfl, rfl⟩
  · have hrt : (updf s.refresh_tokens bu (some rec.refresh_token)) bu
        = some rec.refresh_token := by simp [updf]
    simp only [hrt]
    rcases hr : refresh_token bu rec.refresh_token
        { s with
          cached_tokens := updf s.cached_tokens bu (some (some rec.access_token)),
          refresh_tokens := updf s.refresh_tokens bu (some rec.refresh_token) }
      with ⟨rres, s3, ev2⟩
    have h2 : s3.cached_tokens = updf s.cached_tokens bu (some (some rec.access_token))
        ∧ s3.refresh_tokens = updf s.refresh_tokens bu (some rec.refresh_token) := by
      have h0 := refresh_dicts bu rec.refresh_token
        { s with
          cached_tokens := updf s.cached_tokens bu (some (some rec.access_token)),
          refresh_tokens := updf s.refresh_tokens bu (some rec.refresh_token) }
      rw [hr] at h0
      exact h0
    cases rres with
    | ok a => simp [updf, hkb, h2.1, h2.2]
    | error e2 =>
      have h3 := gvtLogin_dicts_other bu now s3
        ([Event.refetch bu, Event.dbLoad bu] ++ ev2) k hk
      simp only
      rw [h3.1, h3.2, h2.1, h2.2]
      simp [updf, hkb]

theorem get_prov (fuel : Nat) :
    ∀ (fp bu : String) (now : Nat) (s : St) (bu2 p tok : String),
      Event.httpGet bu2 p tok ∈ (send_api_get_call fuel fp bu now s).2.2 →
      Event.bearerIssued bu2 tok ∈ (send_api_get_call fuel fp bu now s).2.2 := by
  induction fuel with
  | zero =>
    intro fp bu now s bu2 p tok h
    simp [send_api_get_call] at h
  | succ n ih =>
    intro fp bu now s bu2 p tok h
    rcases hb : bearer_token bu now s with ⟨bres, s1, ev1⟩
    have hev1 : ∀ e ∈ ev1, evIsAuthTrace e = true := by
      have h0 := bearer_trace_auth bu now s
      rw [hb] at h0
      exact h0
    have hng : Event.httpGet bu2 p tok ∉ ev1 := by
      intro he
      have := hev1 _ he
      simp [evIsAuthTrace] at this
    cases bres with
    | error e0 =>
      simp only [send_api_get_call, hb] at h ⊢
      exact absurd h hng
    | ok b1 =>
      have hiss1 : Event.bearerIssued bu b1 ∈ ev1 := by
        have h0 := bearer_ok_issued bu now s b1 (by rw [hb])
        rw [hb] at h0
        exact h0
      rcases hpg : popGet s1 bu with ⟨r1, s2⟩
      cases r1 with
      | netErr =>
        simp only [send_api_get_call, hb, hpg, finishResp, Bool.false_eq_true,
          if_false, List.append_eq, List.mem_append, List.mem_singleton] at h ⊢
        rcases h with h | h
        · exact absurd h hng
        · obtain ⟨rfl, rfl, rfl⟩ := by simpa using h
          tauto
      | resp st1 body1 =>
        by_cases h401 : (st1 == 401) = true
        · rcases hb2 : bearer_token bu now
              { s2 with cached_tokens := updf s2.cached_tokens bu (some none) }
            with ⟨bres2, s4, ev4⟩
          have hev4 : ∀ e ∈ ev4, evIsAuthTrace e = true := by
            have h0 := bearer_trace_auth bu now
              { s2 with cached_tokens := updf s2.cached_tokens bu (some none) }
            rw [hb2] at h0
            exact h0
          have hng4 : Event.httpGet bu2 p tok ∉ ev4 := by
            intro he
            have := hev4 _ he
            simp [evIsAuthTrace] at this
          cases bres2 with
          | error e0 =>
            simp only [send_api_get_call, hb, hpg, h401, if_true, hb2, List.append_eq,
              List.mem_append, List.mem_singleton, List.mem_cons, List.not_mem_nil,
              or_false] at h ⊢
            rcases h with ((h | h) | h) | h
            · exact absurd h hng
            · obtain ⟨rfl, rfl, rfl⟩ := by simpa using h
              tauto
            · simp at h
            · exact absurd h hng4
          | ok b2 =>
            have hiss2 : Event.bearerIssued bu b2 ∈ ev4 := by
              have h0 := bearer_ok_issued bu now
                { s2 with cached_tokens := updf s2.cached_tokens bu (some none) } b2
                (by rw [hb2])
              rw [hb2] at h0
              exact h0
            rcases hpg2 : popGet s4 bu with ⟨r2, s5⟩
            rcases hf : finishResp (bu ++ fp) r2 with j2 | _ | e2 <;>
              simp only [send_api_get_call, hb, hpg, h401, if_true, hb2, hpg2, hf,
                List.append_eq, List.mem_append, List.mem_singleton, List.mem_cons,
                List.not_mem_nil, or_false] at h ⊢
            · rcases h with (((h | h) | h) | h) | h
              · exact absurd h hng
              · obtain ⟨rfl, rfl, rfl⟩ := by simpa using h
                tauto
              · simp at h
              · exact absurd h hng4
              · obtain ⟨rfl, rfl, rfl⟩ := by simpa using h
                tauto
            · rcases h with ((((h | h) | h) | h) | h) | h
              · exact absurd h hng
              · obtain ⟨rfl, rfl, rfl⟩ := by simpa using h
                tauto
              · simp at h
              · exact absurd h hng4
              · obtain ⟨rfl, rfl, rfl⟩ := by simpa using h
                tauto
              · have hrec := ih fp base_secondary now s5 bu2 p tok
                  (by simpa using h)
                simp only [List.append_eq, List.mem_append] at hrec
                tauto
            · rcases h with (((h | h) | h) | h) | h
              · exact absurd h hng
              · obtain ⟨rfl, rfl, rfl⟩ := by simpa using h
                tauto
              · simp at h
              · exact absurd h hng4
              · obtain ⟨rfl, rfl, rfl⟩ := by simpa using h
                tauto
        · have h401f : (st1 == 401) = false := by simpa using h401
          rcases hf : finishResp (bu ++ fp) (HResp.resp st1 body1) with j2 | _ | e2 <;>
            simp only [send_api_get_call, hb, hpg, h401f, Bool.false_eq_true,
              if_false, hf, List.append_eq, List.mem_append, List.mem_singleton] at h ⊢
          · rcases h with h | h
            · exact absurd h hng
            · obtain ⟨rfl, rfl, rfl⟩ := by simpa using h
              tauto
          · rcases h with (h | h) | h
            · exact absurd h hng
            · obtain ⟨rfl, rfl, rfl⟩ := by simpa using h
              tauto
            · have hrec := ih fp base_secondary now s2 bu2 p tok
                (by simpa using h)
              simp only [List.append_eq, List.mem_append] at hrec
              tauto
          · rcases h with h | h
            · exact absurd h hng
            · obtain ⟨rfl, rfl, rfl⟩ := by simpa using h
              tauto

theorem put_prov (fuel : Nat) :
    ∀ (fp pl bu : String) (now : Nat) (s : St) (bu2 p pl2 tok : String),
      Event.httpPut bu2 p pl2 tok ∈ (send_api_put_call fuel fp pl bu now s).2.2 →
      Event.bearerIssued bu2 tok ∈ (send_api_put_call fuel fp pl bu now s).2.2 := by
  induction fuel with
  | zero =>
    intro fp pl bu now s bu2 p pl2 tok h
    simp [send_api_put_call] at h
  | succ n ih =>
    intro fp pl bu now s bu2 p pl2 tok h
    rcases hb : bearer_token bu now s with ⟨bres, s1, ev1⟩
    have hev1 : ∀ e ∈ ev1, evIsAuthTrace e = true := by
      have h0 := bearer_trace_auth bu now s
      rw [hb] at h0
      exact h0
    have hng : Event.httpPut bu2 p pl2 tok ∉ ev1 := by
      intro he
      have := hev1 _ he
      simp [evIsAuthTrace] at this
    cases bres with
    | error e0 =>
      simp only [send_api_put_call, hb] at h ⊢
      exact absurd h hng
    | ok b1 =>
      have hiss1 : Event.bearerIssued bu b1 ∈ ev1 := by
        have h0 := bearer_ok_issued bu now s b1 (by rw [hb])
        rw [hb] at h0
        exact h0
      rcases hpg : popPut s1 bu with ⟨r1, s2⟩
      cases r1 with
      | netErr =>
        simp only [send_api_put_call, hb, hpg, finishResp, Bool.false_eq_true,
          if_false, List.append_eq, List.mem_append, List.mem_singleton] at h ⊢
        rcases h with h | h
        · exact absurd h hng
        · obtain ⟨rfl, rfl, rfl, rfl⟩ := by simpa using h
          tauto
      | resp st1 body1 =>
        by_cases h401 : (st1 == 401) = true
        · rcases hb2 : bearer_token bu now
              { s2 with cached_tokens := updf s2.cached_tokens bu (some none) }
            with ⟨bres2, s4, ev4⟩
          have hev4 : ∀ e ∈ ev4, evIsAuthTrace e = true := by
            have h0 := bearer_trace_auth bu now
              { s2 with cached_tokens := updf s2.cached_tokens bu (some none) }
            rw [hb2] at h0
            exact h0
          have hng4 : Event.httpPut bu2 p pl2 tok ∉ ev4 := by
            intro he
            have := hev4 _ he
            simp [evIsAuthTrace] at this
          cases bres2 with
          | error e0 =>
            simp only [send_api_put_call, hb, hpg, h401, if_true, hb2, List.append_eq,
              List.mem_append, List.mem_singleton, List.mem_cons, List.not_mem_nil,
              or_false] at h ⊢
            rcases h with ((h | h) | h) | h
            · exact absurd h hng
            · obtain ⟨rfl, rfl, rfl, rfl⟩ := by simpa using h
              tauto
            · simp at h
            · exact absurd h hng4
          | ok b2 =>
            have hiss2 : Event.bearerIssued bu b2 ∈ ev4 := by
              have h0 := bearer_ok_issued bu now
                { s2 with cached_tokens := updf s2.cached_tokens bu (some none) } b2
                (by rw [hb2])
              rw [hb2] at h0
              exact h0
            rcases hpg2 : popPut s4 bu with ⟨r2, s5⟩
            rcases hf : finishResp (bu ++ fp) r2 with j2 | _ | e2 <;>
              simp only [send_api_put_call, hb, hpg, h401, if_true, hb2, hpg2, hf,
                List.append_eq, List.mem_append, List.mem_singleton, List.mem_cons,
                List.not_mem_nil, or_false] at h ⊢
            · rcases h with (((h | h) | h) | h) | h
              · exact absurd h hng
              · obtain ⟨rfl, rfl, rfl, rfl⟩ := by simpa using h
                tauto
              · simp at h
              · exact absurd h hng4
              · obtain ⟨rfl, rfl, rfl, rfl⟩ := by simpa using h
                tauto
            · rcases h with ((((h | h) | h) | h) | h) | h
              · exact absurd h hng
              · obtain ⟨rfl, rfl, rfl, rfl⟩ := by simpa using h
                tauto
              · simp at h
              · exact absurd h hng4
              · obtain ⟨rfl, rfl, rfl, rfl⟩ := by simpa using h
                tauto
              · have hrec := ih fp pl base_secondary now s5 bu2 p pl2 tok
                  (by simpa using h)
                simp only [List.append_eq, List.mem_append] at hrec
                tauto
            · rcases h with (((h | h) | h) | h) | h
              · exact absurd h hng
              · obtain ⟨rfl, rfl, rfl, rfl⟩ := by simpa using h
                tauto
              · simp at h
              · exact absurd h hng4
              · obtain ⟨rfl, rfl, rfl, rfl⟩ := by simpa using h
                tauto
        · have h401f : (st1 == 401) = false := by simpa using h401
          rcases hf : finishResp (bu ++ fp) (HResp.resp st1 body1) with j2 | _ | e2 <;>
            simp only [send_api_put_call, hb, hpg, h401f, Bool.false_eq_true,
              if_false, hf, List.append_eq, List.mem_append, List.mem_singleton] at h ⊢
          · rcases h with h | h
            · exact absurd h hng
            · obtain ⟨rfl, rfl, rfl, rfl⟩ := by simpa using h
              tauto
          · rcases h with (h | h) | h
            · exact absurd h hng
            · obtain ⟨rfl, rfl, rfl, rfl⟩ := by simpa using h
              tauto
            · have hrec := ih fp pl base_secondary now s2 bu2 p pl2 tok
                (by simpa using h)
              simp only [List.append_eq, List.mem_append] at hrec
              tauto
          · rcases h with h | h
            · exact absurd h hng
            · obtain ⟨rfl, rfl, rfl, rfl⟩ := by simpa using h
              tauto

/-- Claim C9 (confirmed): endpoint token isolation — every resource request an
executor emits carries a bearer token that bearer_token issued for that same
endpoint during the run (GET and PUT alike, across the auth retry and the
recursive failover); save_token writes only the columns of its own endpoint;
and get_valid_token leaves both in-memory dict entries of every other
endpoint untouched. -/
theorem claim_C9_theorem :
    (∀ (fuel : Nat) (fp bu : String) (now : Nat) (s : St) (bu2 p tok : String),
       Event.httpGet bu2 p tok ∈ (send_api_get_call fuel fp bu now s).2.2 →
       Event.bearerIssued bu2 tok ∈ (send_api_get_call fuel fp bu now s).2.2)
    ∧ (∀ (fuel : Nat) (fp pl bu : String) (now : Nat) (s : St)
         (bu2 p pl2 tok : String),
       Event.httpPut bu2 p pl2 tok ∈ (send_api_put_call fuel fp pl bu now s).2.2 →
       Event.bearerIssued bu2 tok ∈ (send_api_put_call fuel fp pl bu now s).2.2)
    ∧ (∀ (a r bu : String) (s : St) (c : ColSet), c ≠ get_token_columns bu →
       (save_token a r bu s).1.store.read c = s.store.read c)
    ∧ (∀ (bu : String) (now : Nat) (s : St) (k : String), k ≠ bu →
       (get_valid_token bu now s).2.1.cached_tokens k = s.cached_tokens k
       ∧ (get_valid_token bu now s).2.1.refresh_tokens k = s.refresh_tokens k) :=
  ⟨fun fuel => get_prov fuel,
   fun fuel => put_prov fuel,
   fun a r bu s c hne => save_cols_other a r bu s c hne,
   fun bu now s k hk => gvt_dicts_other bu now s k hk⟩

/-- Claim C9 witness: in a concrete run the GET to the primary carries T9,
and a bearerIssued record for T9 on the primary is in the same trace. -/
theorem claim_C9_witness :
    Event.httpGet base_primary "/p9" "T9"
      ∈ (send_api_get_call 1 "/p9" base_primary 1000 stC9).2.2
    ∧ Event.bearerIssued base_primary "T9"
      ∈ (send_api_get_call 1 "/p9" base_primary 1000 stC9).2.2 :=
  ⟨by decide,
   claim_C9_theorem.1 1 "/p9" base_primary 1000 stC9 base_primary "/p9" "T9"
     (by decide)⟩

theorem exec_get_fail (fuel : Nat) (fp bu : String) (now : Nat) (s : St)
    (t : String) (r : HResp) (q : List HResp)
    (hc : s.cached_tokens bu = some (some t)) (ht : t ≠ "")
    (hq : s.env.getQ bu = r :: q)
    (hr : failsImmediately (bu ++ fp) r) :
    ∃ e, send_api_get_call (fuel + 1) fp bu now s =
      (Except.error e,
       { cached_tokens := s.cached_tokens, refresh_tokens := s.refresh_tokens,
         store := s.store,
         env := { loginQ := s.env.loginQ, refreshQ := s.env.refreshQ,
                  getQ := updf s.env.getQ bu q, putQ := s.env.putQ } },
       [Event.bearerIssued bu t, Event.httpGet bu fp t]) := by
  have hb1 := bearer_cached_hit bu t now s hc ht
  rcases hr with rfl | ⟨st, body0, rfl, h4a, h4b, h401f, hE⟩
  · refine ⟨PyErr.netError (bu ++ fp), ?_⟩
    simp only [send_api_get_call, hb1, popGet, hq, finishResp]
    simp
  · refine ⟨PyErr.httpError st (bu ++ fp), ?_⟩
    have h400 : 400 ≤ st ∧ st < 600 := ⟨h4a, h4b⟩
    simp only [send_api_get_call, hb1, popGet, hq, h401f, Bool.false_eq_true,
      if_false, finishResp, hE]
    simp [h400, hE]

theorem exec_get_200 (fuel : Nat) (fp bu : String) (now : Nat) (s : St)
    (t body : String) (q : List HResp) (j : JVal)
    (hc : s.cached_tokens bu = some (some t)) (ht : t ≠ "")
    (hq : s.env.getQ bu = HResp.resp 200 body :: q)
    (hj : jsonParse body = some j) :
    (send_api_get_call (fuel + 1) fp bu now s).1 = Except.ok j
    ∧ (send_api_get_call (fuel + 1) fp bu now s).2.2
        = [Event.bearerIssued bu t, Event.httpGet bu fp t] := by
  have hb1 := bearer_cached_hit bu t now s hc ht
  have h200 : ¬(400 ≤ 200 ∧ 200 < 600) := by omega
  constructor <;>
    (simp only [send_api_get_call, hb1, popGet, hq, finishResp]
     simp [h200, hj])

theorem exec_put_fail (fuel : Nat) (fp pl bu : String) (now : Nat) (s : St)
    (t : String) (r : HResp) (q : List HResp)
    (hc : s.cached_tokens bu = some (some t)) (ht : t ≠ "")
    (hq : s.env.putQ bu = r :: q)
    (hr : failsImmediately (bu ++ fp) r) :
    ∃ e, send_api_put_call (fuel + 1) fp pl bu now s =
      (Except.error e,
       { cached_tokens := s.cached_tokens, refresh_tokens := s.refresh_tokens,
         store := s.store,
         env := { loginQ := s.env.loginQ, refreshQ := s.env.refreshQ,
                  getQ := s.env.getQ, putQ := updf s.env.putQ bu q } },
       [Event.bearerIssued bu t, Event.httpPut bu fp pl t]) := by
  have hb1 := bearer_cached_hit bu t now s hc ht
  rcases hr with rfl | ⟨st, body0, rfl, h4a, h4b, h401f, hE⟩
  · refine ⟨PyErr.netError (bu ++ fp), ?_⟩
    simp only [send_api_put_call, hb1, popPut, hq, finishResp]
    simp
  · refine ⟨PyErr.httpError st (bu ++ fp), ?_⟩
    have h400 : 400 ≤ st ∧ st < 600 := ⟨h4a, h4b⟩
    simp only [send_api_put_call, hb1, popPut, hq, h401f, Bool.false_eq_true,
      if_false, finishResp, hE]
    simp [h400, hE]

theorem exec_put_200 (fuel : Nat) (fp pl bu : String) (now : Nat) (s : St)
    (t body : String) (q : List HResp) (j : JVal)
    (hc : s.cached_tokens bu = some (some t)) (ht : t ≠ "")
    (hq : s.env.putQ bu = HResp.resp 200 body :: q)
    (hj : jsonParse body = some j) :
    (send_api_put_call (fuel + 1) fp pl bu now s).1 = Except.ok j
    ∧ (send_api_put_call (fuel + 1) fp pl bu now s).2.2
        = [Event.bearerIssued bu t, Event.httpPut bu fp pl t] := by
  have hb1 := bearer_cached_hit bu t now s hc ht
  have h200 : ¬(400 ≤ 200 ∧ 200 < 600) := by omega
  constructor <;>
    (simp only [send_api_put_call, hb1, popPut, hq, finishResp]
     simp [h200, hj])

theorem tryBoth_failover (fuel : Nat) (fp : String) (now : Nat) (s : St)
    (t1 t2 body : String) (r : HResp) (qp qs : List HResp) (j : JVal)
    (h1 : s.cached_tokens base_primary = some (some t1)) (ht1 : t1 ≠ "")
    (h2 : s.cached_tokens base_secondary = some (some t2)) (ht2 : t2 ≠ "")
    (hqp : s.env.getQ base_primary = r :: qp)
    (hr : failsImmediately (base_primary ++ fp) r)
    (hqs : s.env.getQ base_secondary = HResp.resp 200 body :: qs)
    (hj : jsonParse body = some j) :
    (tryBoth (fuel + 1) fp now s).1 = Except.ok j
    ∧ (tryBoth (fuel + 1) fp now s).2.2 =
        [Event.bearerIssued base_primary t1, Event.httpGet base_primary fp t1,
         Event.bearerIssued base_secondary t2, Event.httpGet base_secondary fp t2] := by
  obtain ⟨e, leg1⟩ := exec_get_fail fuel fp base_primary now s t1 r qp h1 ht1 hqp hr
  have hne : (base_secondary == base_primary) = false := by decide
  have leg2 := exec_get_200 fuel fp base_secondary now
    { cached_tokens := s.cached_tokens, refresh_tokens := s.refresh_tokens,
      store := s.store,
      env := { loginQ := s.env.loginQ, refreshQ := s.env.refreshQ,
               getQ := updf s.env.getQ base_primary qp, putQ := s.env.putQ } }
    t2 body qs j (by simpa using h2) ht2 (by simp [updf, hne, hqs]) hj
  constructor
  · simp only [tryBoth, leg1]
    simpa using leg2.1
  · simp only [tryBoth, leg1]
    simp only [leg2.2]
    simp

theorem tryBoth_propagates (fuel : Nat) (fp : String) (now : Nat) (s : St)
    (e1 e2 : PyErr)
    (hp : (send_api_get_call fuel fp base_primary now s).1 = Except.error e1)
    (hs : (send_api_get_call fuel fp base_secondary now
        (send_api_get_call fuel fp base_primary now s).2.1).1 = Except.error e2) :
    (tryBoth fuel fp now s).1 = Except.error e2 := by
  rcases hrun : send_api_get_call fuel fp base_primary now s with ⟨r1, s1x, ev1x⟩
  rw [hrun] at hp hs
  cases r1 with
  | ok jx => simp at hp
  | error ex =>
    rcases hrun2 : send_api_get_call fuel fp base_secondary now s1x with ⟨r2, s2x, ev2x⟩
    rw [hrun2] at hs
    simp only [tryBoth, hrun, hrun2]
    simpa using hs

theorem put_op_failover (fuel : Nat) (uuid pl : String) (now : Nat) (s : St)
    (t1 t2 body : String) (r : HResp) (qp qs : List HResp) (j : JVal)
    (h1 : s.cached_tokens base_primary = some (some t1)) (ht1 : t1 ≠ "")
    (h2 : s.cached_tokens base_secondary = some (some t2)) (ht2 : t2 ≠ "")
    (hqp : s.env.putQ base_primary = r :: qp)
    (hr : failsImmediately (base_primary ++ ("/api/5.1/outputs/config/" ++ uuid)) r)
    (hqs : s.env.putQ base_secondary = HResp.resp 200 body :: qs)
    (hj : jsonParse body = some j) :
    (put_one_output uuid pl (fuel + 1) now s).1 = Except.ok j
    ∧ (put_one_output uuid pl (fuel + 1) now s).2.2 =
        [Event.bearerIssued base_primary t1,
         Event.httpPut base_primary ("/api/5.1/outputs/config/" ++ uuid) pl t1,
         Event.bearerIssued base_secondary t2,
         Event.httpPut base_secondary ("/api/5.1/outputs/config/" ++ uuid) pl t2] := by
  obtain ⟨e, leg1⟩ := exec_put_fail fuel ("/api/5.1/outputs/config/" ++ uuid) pl
    base_primary now s t1 r qp h1 ht1 hqp hr
  have hne : (base_secondary == base_primary) = false := by decide
  have leg2 := exec_put_200 fuel ("/api/5.1/outputs/config/" ++ uuid) pl
    base_secondary now
    { cached_tokens := s.cached_tokens, refresh_tokens := s.refresh_tokens,
      store := s.store,
      env := { loginQ := s.env.loginQ, refreshQ := s.env.refreshQ,
               getQ := s.env.getQ, putQ := updf s.env.putQ base_primary qp } }
    t2 body qs j (by simpa using h2) ht2 (by simp [updf, hne, hqs]) hj
  constructor
  · simp only [put_one_output, leg1]
    simpa using leg2.1
  · simp only [put_one_output, leg1]
    simp only [leg2.2]
    simp

theorem put_op_propagates (fuel : Nat) (uuid pl : String) (now : Nat) (s : St)
    (e1 e2 : PyErr)
    (hp : (send_api_put_call fuel ("/api/5.1/outputs/config/" ++ uuid) pl
        base_primary now s).1 = Except.error e1)
    (hs : (send_api_put_call fuel ("/api/5.1/outputs/config/" ++ uuid) pl
        base_secondary now
        (send_api_put_call fuel ("/api/5.1/outputs/config/" ++ uuid) pl
          base_primary now s).2.1).1 = Except.error e2) :
    (put_one_output uuid pl fuel now s).1 = Except.error e2 := by
  rcases hrun : send_api_put_call fuel ("/api/5.1/outputs/config/" ++ uuid) pl
      base_primary now s with ⟨r1, s1x, ev1x⟩
  rw [hrun] at hp hs
  cases r1 with
  | ok jx => simp at hp
  | error ex =>
    rcases hrun2 : send_api_put_call fuel ("/api/5.1/outputs/config/" ++ uuid) pl
        base_secondary now s1x with ⟨r2, s2x, ev2x⟩
    rw [hrun2] at hs
    simp only [put_one_output, hrun, hrun2]
    simpa using hs

/-- Claim C8 (amended): every one of the five domain operations — list
outputs, get one output, list devices, get device status, update one
output — calls its executor against primary first; if the executor raises,
it calls the executor against secondary with the same arguments, and if that
also fails the secondary's failure propagates to the caller.  When the
primary fails with a network error or a non-401 HTTP error (the executor
raising after a single request) and the secondary answers 200, the operation
returns the secondary's parsed body and the primary received exactly one
request, issued before the secondary's; when the primary fails with 401s,
however, it receives two requests (the auth retry) and the executor
completes the failover itself. -/
theorem claim_C8_theorem :
    (∀ (fuel now : Nat) (s : St) (t1 t2 body : String) (r : HResp)
       (qp qs : List HResp) (j : JVal),
      s.cached_tokens base_primary = some (some t1) → t1 ≠ "" →
      s.cached_tokens base_secondary = some (some t2) → t2 ≠ "" →
      s.env.getQ base_primary = r :: qp →
      failsImmediately (base_primary ++ "/api/5.1/outputs/config") r →
      s.env.getQ base_secondary = HResp.resp 200 body :: qs →
      jsonParse body = some j →
      (get_all_outputs (fuel + 1) now s).1 = Except.ok j
      ∧ (get_all_outputs (fuel + 1) now s).2.2 =
          [Event.bearerIssued base_primary t1,
           Event.httpGet base_primary "/api/5.1/outputs/config" t1,
           Event.bearerIssued base_secondary t2,
           Event.httpGet base_secondary "/api/5.1/outputs/config" t2])
    ∧ (∀ (uuid : String) (fuel now : Nat) (s : St) (t1 t2 body : String)
         (r : HResp) (qp qs : List HResp) (j : JVal),
      s.cached_tokens base_primary = some (some t1) → t1 ≠ "" →
      s.cached_tokens base_secondary = some (some t2) → t2 ≠ "" →
      s.env.getQ base_primary = r :: qp →
      failsImmediately (base_primary ++ ("/api/5.1/outputs/config/" ++ uuid)) r →
      s.env.getQ base_secondary = HResp.resp 200 body :: qs →
      jsonParse body = some j →
      (get_one_output uuid (fuel + 1) now s).1 = Except.ok j
      ∧ (get_one_output uuid (fuel + 1) now s).2.2 =
          [Event.bearerIssued base_primary t1,
           Event.httpGet base_primary ("/api/5.1/outputs/config/" ++ uuid) t1,
           Event.bearerIssued base_secondary t2,
           Event.httpGet base_secondary ("/api/5.1/outputs/config/" ++ uuid) t2])
    ∧ (∀ (fuel now : Nat) (s : St) (t1 t2 body : String) (r : HResp)
         (qp qs : List HResp) (j : JVal),
      s.cached_tokens base_primary = some (some t1) → t1 ≠ "" →
      s.cached_tokens base_secondary = some (some t2) → t2 ≠ "" →
      s.env.getQ base_primary = r :: qp →
      failsImmediately (base_primary ++ "/api/5.1/devices/config") r →
      s.env.getQ base_secondary = HResp.resp 200 body :: qs →
      jsonParse body = some j →
      (get_all_devices (fuel + 1) now s).1 = Except.ok j
      ∧ (get_all_devices (fuel + 1) now s).2.2 =
          [Event.bearerIssued base_primary t1,
           Event.httpGet base_primary "/api/5.1/devices/config" t1,
           Event.bearerIssued base_secondary t2,
           Event.httpGet base_secondary "/api/5.1/devices/config" t2])
    ∧ (∀ (fuel now : Nat) (s : St) (t1 t2 body : String) (r : HResp)
         (qp qs : List HResp) (j : JVal),
      s.cached_tokens base_primary = some (some t1) → t1 ≠ "" →
      s.cached_tokens base_secondary = some (some t2) → t2 ≠ "" →
      s.env.getQ base_primary = r :: qp →
      failsImmediately (base_primary ++ "/api/5.1/devices/status") r →
      s.env.getQ base_secondary = HResp.resp 200 body :: qs →
      jsonParse body = some j →
      (get_all_devices_status (fuel + 1) now s).1 = Except.ok j
      ∧ (get_all_devices_status (fuel + 1) now s).2.2 =
          [Event.bearerIssued base_primary t1,
           Event.httpGet base_primary "/api/5.1/devices/status" t1,
           Event.bearerIssued base_secondary t2,
           Event.httpGet base_secondary "/api/5.1/devices/status" t2])
    ∧ (∀ (uuid pl : String) (fuel now : Nat) (s : St) (t1 t2 body : String)
         (r : HResp) (qp qs : List HResp) (j : JVal),
      s.cached_tokens base_primary = some (some t1) → t1 ≠ "" →
      s.cached_tokens base_secondary = some (some t2) → t2 ≠ "" →
      s.env.putQ base_primary = r :: qp →
      failsImmediately (base_primary ++ ("/api/5.1/outputs/config/" ++ uuid)) r →
      s.env.putQ base_secondary = HResp.resp 200 body :: qs →
      jsonParse body = some j →
      (put_one_output uuid pl (fuel + 1) now s).1 = Except.ok j
      ∧ (put_one_output uuid pl (fuel + 1) now s).2.2 =
          [Event.bearerIssued base_primary t1,
           Event.httpPut base_primary ("/api/5.1/outputs/config/" ++ uuid) pl t1,
           Event.bearerIssued base_secondary t2,
           Event.httpPut base_secondary ("/api/5.1/outputs/config/" ++ uuid) pl t2])
    ∧ (∀ (fuel now : Nat) (s : St) (e1 e2 : PyErr),
      (send_api_get_call fuel "/api/5.1/outputs/config" base_primary now s).1
        = Except.error e1 →
      (send_api_get_call fuel "/api/5.1/outputs/config" base_secondary now
        (send_api_get_call fuel "/api/5.1/outputs/config" base_primary
          now s).2.1).1 = Except.error e2 →
      (get_all_outputs fuel now s).1 = Except.error e2)
    ∧ (∀ (uuid : String) (fuel now : Nat) (s : St) (e1 e2 : PyErr),
      (send_api_get_call fuel ("/api/5.1/outputs/config/" ++ uuid)
        base_primary now s).1 = Except.error e1 →
      (send_api_get_call fuel ("/api/5.1/outputs/config/" ++ uuid)
        base_secondary now
        (send_api_get_call fuel ("/api/5.1/outputs/config/" ++ uuid)
          base_primary now s).2.1).1 = Except.error e2 →
      (get_one_output uuid fuel now s).1 = Except.error e2)
    ∧ (∀ (fuel now : Nat) (s : St) (e1 e2 : PyErr),
      (send_api_get_call fuel "/api/5.1/devices/config" base_primary now s).1
        = Except.error e1 →
      (send_api_get_call fuel "/api/5.1/devices/config" base_secondary now
        (send_api_get_call fuel "/api/5.1/devices/config" base_primary
          now s).2.1).1 = Except.error e2 →
      (get_all_devices fuel now s).1 = Except.error e2)
    ∧ (∀ (fuel now : Nat) (s : St) (e1 e2 : PyErr),
      (send_api_get_call fuel "/api/5.1/devices/status" base_primary now s).1
        = Except.error e1 →
      (send_api_get_call fuel "/api/5.1/devices/status" base_secondary now
        (send_api_get_call fuel "/api/5.1/devices/status" base_primary
          now s).2.1).1 = Except.error e2 →
      (get_all_devices_status fuel now s).1 = Except.error e2)
    ∧ (∀ (uuid pl : String) (fuel now : Nat) (s : St) (e1 e2 : PyErr),
      (send_api_put_call fuel ("/api/5.1/outputs/config/" ++ uuid) pl
        base_primary now s).1 = Except.error e1 →
      (send_api_put_call fuel ("/api/5.1/outputs/config/" ++ uuid) pl
        base_secondary now
        (send_api_put_call fuel ("/api/5.1/outputs/config/" ++ uuid) pl
          base_primary now s).2.1).1 = Except.error e2 →
      (put_one_output uuid pl fuel now s).1 = Except.error e2) :=
  ⟨fun fuel now s t1 t2 body r qp qs j h1 ht1 h2 ht2 hqp hr hqs hj =>
     tryBoth_failover fuel "/api/5.1/outputs/config" now s t1 t2 body r qp qs j
       h1 ht1 h2 ht2 hqp hr hqs hj,
   fun uuid fuel now s t1 t2 body r qp qs j h1 ht1 h2 ht2 hqp hr hqs hj =>
     tryBoth_failover fuel ("/api/5.1/outputs/config/" ++ uuid) now s t1 t2 body
       r qp qs j h1 ht1 h2 ht2 hqp hr hqs hj,
   fun fuel now s t1 t2 body r qp qs j h1 ht1 h2 ht2 hqp hr hqs hj =>
     tryBoth_failover fuel "/api/5.1/devices/config" now s t1 t2 body r qp qs j
       h1 ht1 h2 ht2 hqp hr hqs hj,
   fun fuel now s t1 t2 body r qp qs j h1 ht1 h2 ht2 hqp hr hqs hj =>
     tryBoth_failover fuel "/api/5.1/devices/status" now s t1 t2 body r qp qs j
       h1 ht1 h2 ht2 hqp hr hqs hj,
   fun uuid pl fuel now s t1 t2 body r qp qs j h1 ht1 h2 ht2 hqp hr hqs hj =>
     put_op_failover fuel uuid pl now s t1 t2 body r qp qs j
       h1 ht1 h2 ht2 hqp hr hqs hj,
   fun fuel now s e1 e2 hp hs =>
     tryBoth_propagates fuel "/api/5.1/outputs/config" now s e1 e2 hp hs,
   fun uuid fuel now s e1 e2 hp hs =>
     tryBoth_propagates fuel ("/api/5.1/outputs/config/" ++ uuid) now s e1 e2 hp hs,
   fun fuel now s e1 e2 hp hs =>
     tryBoth_propagates fuel "/api/5.1/devices/config" now s e1 e2 hp hs,
   fun fuel now s e1 e2 hp hs =>
     tryBoth_propagates fuel "/api/5.1/devices/status" now s e1 e2 hp hs,
   fun uuid pl fuel now s e1 e2 hp hs =>
     put_op_propagates fuel uuid pl now s e1 e2 hp hs⟩

/-- Claim C8 counterexample: with the primary answering only 401s and the
secondary 200, both a GET operation (list outputs) and the PUT operation
(update one output) do return the secondary's body, but the primary is
attempted twice (the executor's auth retry), not exactly once. -/
theorem claim_C8_counterexample :
    (get_all_outputs 2 1000 stC8).1 = Except.ok jC8
    ∧ ((get_all_outputs 2 1000 stC8).2.2).countP (evIsGetTo base_primary) = 2
    ∧ (put_one_output "u8" "PL8" 2 1000 stC8p).1 = Except.ok jC8
    ∧ ((put_one_output "u8" "PL8" 2 1000 stC8p).2.2).countP
        (evIsPutTo base_primary) = 2 :=
  ⟨rfl, by decide, rfl, by decide⟩

/-- Claim C8 witness: the amended statement instantiated on two concrete
scenarios — list outputs with the primary failing on HTTP 500 and update one
output with the primary failing on a network error, the secondary answering
200 in both. -/
theorem claim_C8_witness :
    (stC8c.cached_tokens base_primary = some (some "T0")
     ∧ stC8c.env.getQ base_primary = [HResp.resp 500 "oops"]
     ∧ stC8c.env.getQ base_secondary = [HResp.resp 200 bodyC8]
     ∧ stC8d.env.putQ base_primary = [HResp.netErr]
     ∧ stC8d.env.putQ base_secondary = [HResp.resp 200 bodyC8]
     ∧ jsonParse bodyC8 = some jC8)
    ∧ ((get_all_outputs 1 1000 stC8c).1 = Except.ok jC8
      ∧ (get_all_outputs 1 1000 stC8c).2.2 =
          [Event.bearerIssued base_primary "T0",
           Event.httpGet base_primary "/api/5.1/outputs/config" "T0",
           Event.bearerIssued base_secondary "S0",
           Event.httpGet base_secondary "/api/5.1/outputs/config" "S0"])
    ∧ ((put_one_output "u8" "PL8" 1 1000 stC8d).1 = Except.ok jC8
      ∧ (put_one_output "u8" "PL8" 1 1000 stC8d).2.2 =
          [Event.bearerIssued base_primary "T0",
           Event.httpPut base_primary "/api/5.1/outputs/config/u8" "PL8" "T0",
           Event.bearerIssued base_secondary "S0",
           Event.httpPut base_secondary "/api/5.1/outputs/config/u8" "PL8" "S0"]) :=
  ⟨⟨by decide, by decide, by decide, by decide, by decide, rfl⟩,
   claim_C8_theorem.1 0 1000 stC8c "T0" "S0" bodyC8 (HResp.resp 500 "oops") [] [] jC8
     (by decide) (by decide) (by decide) (by decide) (by decide)
     (Or.inr ⟨500, "oops", rfl, by omega, by omega, by decide, by decide⟩)
     (by decide) rfl,
   claim_C8_theorem.2.2.2.2.1 "u8" "PL8" 0 1000 stC8d "T0" "S0" bodyC8
     HResp.netErr [] [] jC8
     (by decide) (by decide) (by decide) (by decide) (by decide)
     (Or.inl rfl) (by decide) rfl⟩
